import Mathlib

/-!
# ConcreteDPM2 (OOFEM): per-point status store and return-mapping bookkeeping

Shallow embedding of `src/sm/Materials/ConcreteMaterials/concretedpm2.h`, of the
status and material classes of `src/sm/Materials/LatticeMaterials/latticeplasticitydamage.h`
and of the degree-of-freedom counts of `src/sm/Elements/Shells/mitc4.h`.

* C++ `double` values are elements of an arbitrary scalar type `R`
  (instantiated with `ℚ` at concrete inputs); no operation embedded from the
  header performs floating-point rounding, the setters and getters only move
  values.
* `FloatArray` is a list of scalars.
* `int state_flag` is an `Int`; the enumerators of `state_flag_values` are
  numbered by `state_flag_values.toInt`.
* A member function `void f(args)` of `ConcreteDPM2Status` is a function
  `ConcreteDPM2Status R → args → ConcreteDPM2Status R`.

The header only declares `initTempStatus`, `updateYourself`, `saveContext`,
`restoreContext`, `performRegularReturn` and `computeDamage`; their bodies are
not part of the sources at hand, so these are modelled from the specification
and marked as such.
-/

namespace oofem

/-! ## Data model -/

/-- The class `FloatArray`: a dynamically sized array of doubles. -/
abbrev FloatArray (R : Type) : Type := List R

/-- Values of history variable state_flag (`ConcreteDPM2Status::state_flag_values`). -/
inductive state_flag_values where
  | ConcreteDPM2_Elastic
  | ConcreteDPM2_Unloading
  | ConcreteDPM2_Plastic
  | ConcreteDPM2_Damage
  | ConcreteDPM2_PlasticDamage
  | ConcreteDPM2_VertexCompression
  | ConcreteDPM2_VertexTension
  | ConcreteDPM2_VertexCompressionDamage
  | ConcreteDPM2_VertexTensionDamage
  deriving DecidableEq, Repr

/-- The integer value of an enumerator (C++ numbers them from 0 in declaration order). -/
def state_flag_values.toInt : state_flag_values → Int
  | .ConcreteDPM2_Elastic => 0
  | .ConcreteDPM2_Unloading => 1
  | .ConcreteDPM2_Plastic => 2
  | .ConcreteDPM2_Damage => 3
  | .ConcreteDPM2_PlasticDamage => 4
  | .ConcreteDPM2_VertexCompression => 5
  | .ConcreteDPM2_VertexTension => 6
  | .ConcreteDPM2_VertexCompressionDamage => 7
  | .ConcreteDPM2_VertexTensionDamage => 8

/-- The data members of `class ConcreteDPM2Status`, in declaration order
(`keep_track_of_dissipated_energy` is defined in the header, so the work
densities are present). -/
structure ConcreteDPM2Status (R : Type) where
  plasticStrain : FloatArray R
  tempPlasticStrain : FloatArray R
  reducedStrain : FloatArray R
  tempReducedStrain : FloatArray R
  kappaP : R
  tempKappaP : R
  kappaPPeak : R
  le : R
  alpha : R
  tempAlpha : R
  equivStrain : R
  tempEquivStrain : R
  equivStrainTension : R
  tempEquivStrainTension : R
  equivStrainCompression : R
  tempEquivStrainCompression : R
  kappaDTension : R
  tempKappaDTension : R
  kappaDCompression : R
  tempKappaDCompression : R
  kappaDTensionOne : R
  tempKappaDTensionOne : R
  kappaDCompressionOne : R
  tempKappaDCompressionOne : R
  kappaDTensionTwo : R
  tempKappaDTensionTwo : R
  kappaDCompressionTwo : R
  tempKappaDCompressionTwo : R
  damageTension : R
  tempDamageTension : R
  damageCompression : R
  tempDamageCompression : R
  deltaEquivStrain : R
  rateFactor : R
  tempRateFactor : R
  rateStrain : R
  tempRateStrain : R
  state_flag : Int
  temp_state_flag : Int
  stressWork : R
  tempStressWork : R
  dissWork : R
  tempDissWork : R
  deriving DecidableEq, Repr

namespace ConcreteDPM2Status

variable {R : Type}

/-- The status produced by the default member initialisers of the header:
every scalar is `0.` except `rateFactor = 1.`, both state flags are
`ConcreteDPM2_Elastic`, and the arrays are default-constructed (empty). -/
def defaultInit (R : Type) [Zero R] [One R] : ConcreteDPM2Status R where
  plasticStrain := []
  tempPlasticStrain := []
  reducedStrain := []
  tempReducedStrain := []
  kappaP := 0
  tempKappaP := 0
  kappaPPeak := 0
  le := 0
  alpha := 0
  tempAlpha := 0
  equivStrain := 0
  tempEquivStrain := 0
  equivStrainTension := 0
  tempEquivStrainTension := 0
  equivStrainCompression := 0
  tempEquivStrainCompression := 0
  kappaDTension := 0
  tempKappaDTension := 0
  kappaDCompression := 0
  tempKappaDCompression := 0
  kappaDTensionOne := 0
  tempKappaDTensionOne := 0
  kappaDCompressionOne := 0
  tempKappaDCompressionOne := 0
  kappaDTensionTwo := 0
  tempKappaDTensionTwo := 0
  kappaDCompressionTwo := 0
  tempKappaDCompressionTwo := 0
  damageTension := 0
  tempDamageTension := 0
  damageCompression := 0
  tempDamageCompression := 0
  deltaEquivStrain := 0
  rateFactor := 1
  tempRateFactor := 0
  rateStrain := 0
  tempRateStrain := 0
  state_flag := state_flag_values.ConcreteDPM2_Elastic.toInt
  temp_state_flag := state_flag_values.ConcreteDPM2_Elastic.toInt
  stressWork := 0
  tempStressWork := 0
  dissWork := 0
  tempDissWork := 0

/-! ### Inline accessors (header lines 193-417, 527, 546-554) -/

def giveReducedStrain (s : ConcreteDPM2Status R) : FloatArray R := s.reducedStrain
def giveTempReducedStrain (s : ConcreteDPM2Status R) : FloatArray R := s.tempReducedStrain
def givePlasticStrain (s : ConcreteDPM2Status R) : FloatArray R := s.plasticStrain
def giveKappaP (s : ConcreteDPM2Status R) : R := s.kappaP
def giveKappaDTensionOne (s : ConcreteDPM2Status R) : R := s.kappaDTensionOne
def giveKappaDCompressionOne (s : ConcreteDPM2Status R) : R := s.kappaDCompressionOne
def giveKappaDTensionTwo (s : ConcreteDPM2Status R) : R := s.kappaDTensionTwo
def giveKappaDCompressionTwo (s : ConcreteDPM2Status R) : R := s.kappaDCompressionTwo
def giveEquivStrain (s : ConcreteDPM2Status R) : R := s.equivStrain
def giveEquivStrainTension (s : ConcreteDPM2Status R) : R := s.equivStrainTension
def giveEquivStrainCompression (s : ConcreteDPM2Status R) : R := s.equivStrainCompression
def giveDamageTension (s : ConcreteDPM2Status R) : R := s.damageTension
def giveDamageCompression (s : ConcreteDPM2Status R) : R := s.damageCompression
def giveRateFactor (s : ConcreteDPM2Status R) : R := s.rateFactor
def giveTempRateFactor (s : ConcreteDPM2Status R) : R := s.tempRateFactor
def giveRateStrain (s : ConcreteDPM2Status R) : R := s.rateStrain
def giveStateFlag (s : ConcreteDPM2Status R) : Int := s.state_flag
def giveTempPlasticStrain (s : ConcreteDPM2Status R) : FloatArray R := s.tempPlasticStrain
def giveTempKappaP (s : ConcreteDPM2Status R) : R := s.tempKappaP
/-- Returns the committed `kappaDTension` (header line 373-374). -/
def giveKappaDTension (s : ConcreteDPM2Status R) : R := s.kappaDTension
def giveAlpha (s : ConcreteDPM2Status R) : R := s.alpha
/-- Returns the committed `kappaDCompression` (header line 384-385). -/
def giveKappaDCompression (s : ConcreteDPM2Status R) : R := s.kappaDCompression
def giveTempDamageTension (s : ConcreteDPM2Status R) : R := s.tempDamageTension
def giveTempDamageCompression (s : ConcreteDPM2Status R) : R := s.tempDamageCompression
def giveDeltaEquivStrain (s : ConcreteDPM2Status R) : R := s.deltaEquivStrain
def giveTempStateFlag (s : ConcreteDPM2Status R) : Int := s.temp_state_flag
def giveLe (s : ConcreteDPM2Status R) : R := s.le
def giveStressWork (s : ConcreteDPM2Status R) : R := s.stressWork
def giveTempStressWork (s : ConcreteDPM2Status R) : R := s.tempStressWork
def giveDissWork (s : ConcreteDPM2Status R) : R := s.dissWork
def giveTempDissWork (s : ConcreteDPM2Status R) : R := s.tempDissWork

/-! ### Inline mutators (header lines 331-336, 425-556) -/

def letTempRateStrainBe (s : ConcreteDPM2Status R) (v : R) : ConcreteDPM2Status R :=
  { s with tempRateStrain := v }
def letTempAlphaBe (s : ConcreteDPM2Status R) (v : R) : ConcreteDPM2Status R :=
  { s with tempAlpha := v }
def letTempPlasticStrainBe (s : ConcreteDPM2Status R) (v : FloatArray R) :
    ConcreteDPM2Status R :=
  { s with tempPlasticStrain := v }
def letTempReducedStrainBe (s : ConcreteDPM2Status R) (v : FloatArray R) :
    ConcreteDPM2Status R :=
  { s with tempReducedStrain := v }
def letTempKappaPBe (s : ConcreteDPM2Status R) (v : R) : ConcreteDPM2Status R :=
  { s with tempKappaP := v }
def letTempKappaDTensionBe (s : ConcreteDPM2Status R) (v : R) : ConcreteDPM2Status R :=
  { s with tempKappaDTension := v }
def letTempKappaDCompressionBe (s : ConcreteDPM2Status R) (v : R) : ConcreteDPM2Status R :=
  { s with tempKappaDCompression := v }
def letTempKappaDTensionOneBe (s : ConcreteDPM2Status R) (v : R) : ConcreteDPM2Status R :=
  { s with tempKappaDTensionOne := v }
def letTempKappaDCompressionOneBe (s : ConcreteDPM2Status R) (v : R) : ConcreteDPM2Status R :=
  { s with tempKappaDCompressionOne := v }
def letTempKappaDTensionTwoBe (s : ConcreteDPM2Status R) (v : R) : ConcreteDPM2Status R :=
  { s with tempKappaDTensionTwo := v }
def letTempKappaDCompressionTwoBe (s : ConcreteDPM2Status R) (v : R) : ConcreteDPM2Status R :=
  { s with tempKappaDCompressionTwo := v }
def letTempDamageTensionBe (s : ConcreteDPM2Status R) (v : R) : ConcreteDPM2Status R :=
  { s with tempDamageTension := v }
def letTempDamageCompressionBe (s : ConcreteDPM2Status R) (v : R) : ConcreteDPM2Status R :=
  { s with tempDamageCompression := v }
def letTempRateFactorBe (s : ConcreteDPM2Status R) (v : R) : ConcreteDPM2Status R :=
  { s with tempRateFactor := v }
def letTempEquivStrainBe (s : ConcreteDPM2Status R) (v : R) : ConcreteDPM2Status R :=
  { s with tempEquivStrain := v }
def letTempEquivStrainTensionBe (s : ConcreteDPM2Status R) (v : R) : ConcreteDPM2Status R :=
  { s with tempEquivStrainTension := v }
def letTempEquivStrainCompressionBe (s : ConcreteDPM2Status R) (v : R) :
    ConcreteDPM2Status R :=
  { s with tempEquivStrainCompression := v }
/-- Sets the characteristic length: `le = ls` (there is no trial copy of `le`). -/
def setLe (s : ConcreteDPM2Status R) (ls : R) : ConcreteDPM2Status R :=
  { s with le := ls }
def letTempStateFlagBe (s : ConcreteDPM2Status R) (v : Int) : ConcreteDPM2Status R :=
  { s with temp_state_flag := v }
def letKappaPPeakBe (s : ConcreteDPM2Status R) (kappa : R) : ConcreteDPM2Status R :=
  { s with kappaPPeak := kappa }
def setTempStressWork (s : ConcreteDPM2Status R) (w : R) : ConcreteDPM2Status R :=
  { s with tempStressWork := w }
def setTempDissWork (s : ConcreteDPM2Status R) (w : R) : ConcreteDPM2Status R :=
  { s with tempDissWork := w }

end ConcreteDPM2Status

/-- One call of an inline mutator of `ConcreteDPM2Status`, with its argument. -/
inductive Mutator (R : Type) where
  | letTempRateStrainBe (v : R)
  | letTempAlphaBe (v : R)
  | letTempPlasticStrainBe (v : FloatArray R)
  | letTempReducedStrainBe (v : FloatArray R)
  | letTempKappaPBe (v : R)
  | letTempKappaDTensionBe (v : R)
  | letTempKappaDCompressionBe (v : R)
  | letTempKappaDTensionOneBe (v : R)
  | letTempKappaDCompressionOneBe (v : R)
  | letTempKappaDTensionTwoBe (v : R)
  | letTempKappaDCompressionTwoBe (v : R)
  | letTempDamageTensionBe (v : R)
  | letTempDamageCompressionBe (v : R)
  | letTempRateFactorBe (v : R)
  | letTempEquivStrainBe (v : R)
  | letTempEquivStrainTensionBe (v : R)
  | letTempEquivStrainCompressionBe (v : R)
  | setLe (ls : R)
  | letTempStateFlagBe (v : Int)
  | letKappaPPeakBe (kappa : R)
  | setTempStressWork (w : R)
  | setTempDissWork (w : R)
  deriving DecidableEq, Repr

namespace Mutator

variable {R : Type}

/-- Perform the call on a status. -/
def apply : Mutator R → ConcreteDPM2Status R → ConcreteDPM2Status R
  | letTempRateStrainBe v, s => s.letTempRateStrainBe v
  | letTempAlphaBe v, s => s.letTempAlphaBe v
  | letTempPlasticStrainBe v, s => s.letTempPlasticStrainBe v
  | letTempReducedStrainBe v, s => s.letTempReducedStrainBe v
  | letTempKappaPBe v, s => s.letTempKappaPBe v
  | letTempKappaDTensionBe v, s => s.letTempKappaDTensionBe v
  | letTempKappaDCompressionBe v, s => s.letTempKappaDCompressionBe v
  | letTempKappaDTensionOneBe v, s => s.letTempKappaDTensionOneBe v
  | letTempKappaDCompressionOneBe v, s => s.letTempKappaDCompressionOneBe v
  | letTempKappaDTensionTwoBe v, s => s.letTempKappaDTensionTwoBe v
  | letTempKappaDCompressionTwoBe v, s => s.letTempKappaDCompressionTwoBe v
  | letTempDamageTensionBe v, s => s.letTempDamageTensionBe v
  | letTempDamageCompressionBe v, s => s.letTempDamageCompressionBe v
  | letTempRateFactorBe v, s => s.letTempRateFactorBe v
  | letTempEquivStrainBe v, s => s.letTempEquivStrainBe v
  | letTempEquivStrainTensionBe v, s => s.letTempEquivStrainTensionBe v
  | letTempEquivStrainCompressionBe v, s => s.letTempEquivStrainCompressionBe v
  | setLe ls, s => s.setLe ls
  | letTempStateFlagBe v, s => s.letTempStateFlagBe v
  | letKappaPPeakBe kappa, s => s.letKappaPPeakBe kappa
  | setTempStressWork w, s => s.setTempStressWork w
  | setTempDissWork w, s => s.setTempDissWork w

/-- Whether the call is a call of `setLe`. -/
def isSetLe : Mutator R → Bool
  | setLe _ => true
  | _ => false

end Mutator

/-- The committed record of a status: every data member that is not a `temp`
member and is part of the persistent history (the plastic and reduced strain,
the hardening variable, alpha, the equivalent strains, the six damage history
variables, the two damage scalars, rate factor and rate strain, the work
densities, the characteristic length and the state flag). -/
structure CommittedRecord (R : Type) where
  plasticStrain : FloatArray R
  reducedStrain : FloatArray R
  kappaP : R
  le : R
  alpha : R
  equivStrain : R
  equivStrainTension : R
  equivStrainCompression : R
  kappaDTension : R
  kappaDCompression : R
  kappaDTensionOne : R
  kappaDCompressionOne : R
  kappaDTensionTwo : R
  kappaDCompressionTwo : R
  damageTension : R
  damageCompression : R
  rateFactor : R
  rateStrain : R
  state_flag : Int
  stressWork : R
  dissWork : R
  deriving DecidableEq, Repr

/-- The trial record of a status: the `temp` counterpart of every committed
member that has one (`le` has none). -/
structure TrialRecord (R : Type) where
  tempPlasticStrain : FloatArray R
  tempReducedStrain : FloatArray R
  tempKappaP : R
  tempAlpha : R
  tempEquivStrain : R
  tempEquivStrainTension : R
  tempEquivStrainCompression : R
  tempKappaDTension : R
  tempKappaDCompression : R
  tempKappaDTensionOne : R
  tempKappaDCompressionOne : R
  tempKappaDTensionTwo : R
  tempKappaDCompressionTwo : R
  tempDamageTension : R
  tempDamageCompression : R
  tempRateFactor : R
  tempRateStrain : R
  temp_state_flag : Int
  tempStressWork : R
  tempDissWork : R
  deriving DecidableEq, Repr

namespace ConcreteDPM2Status

variable {R : Type}

/-- Read the committed record off a status. -/
def committed (s : ConcreteDPM2Status R) : CommittedRecord R where
  plasticStrain := s.givePlasticStrain
  reducedStrain := s.giveReducedStrain
  kappaP := s.giveKappaP
  le := s.giveLe
  alpha := s.giveAlpha
  equivStrain := s.giveEquivStrain
  equivStrainTension := s.giveEquivStrainTension
  equivStrainCompression := s.giveEquivStrainCompression
  kappaDTension := s.giveKappaDTension
  kappaDCompression := s.giveKappaDCompression
  kappaDTensionOne := s.giveKappaDTensionOne
  kappaDCompressionOne := s.giveKappaDCompressionOne
  kappaDTensionTwo := s.giveKappaDTensionTwo
  kappaDCompressionTwo := s.giveKappaDCompressionTwo
  damageTension := s.giveDamageTension
  damageCompression := s.giveDamageCompression
  rateFactor := s.giveRateFactor
  rateStrain := s.giveRateStrain
  state_flag := s.giveStateFlag
  stressWork := s.giveStressWork
  dissWork := s.giveDissWork

/-- Read the trial record off a status. -/
def trial (s : ConcreteDPM2Status R) : TrialRecord R where
  tempPlasticStrain := s.tempPlasticStrain
  tempReducedStrain := s.tempReducedStrain
  tempKappaP := s.tempKappaP
  tempAlpha := s.tempAlpha
  tempEquivStrain := s.tempEquivStrain
  tempEquivStrainTension := s.tempEquivStrainTension
  tempEquivStrainCompression := s.tempEquivStrainCompression
  tempKappaDTension := s.tempKappaDTension
  tempKappaDCompression := s.tempKappaDCompression
  tempKappaDTensionOne := s.tempKappaDTensionOne
  tempKappaDCompressionOne := s.tempKappaDCompressionOne
  tempKappaDTensionTwo := s.tempKappaDTensionTwo
  tempKappaDCompressionTwo := s.tempKappaDCompressionTwo
  tempDamageTension := s.tempDamageTension
  tempDamageCompression := s.tempDamageCompression
  tempRateFactor := s.tempRateFactor
  tempRateStrain := s.tempRateStrain
  temp_state_flag := s.temp_state_flag
  tempStressWork := s.tempStressWork
  tempDissWork := s.tempDissWork

end ConcreteDPM2Status

/-! ## Record conversions -/

/-- The trial record whose every member holds the value of its committed
counterpart. -/
def CommittedRecord.toTrial {R : Type} (c : CommittedRecord R) : TrialRecord R where
  tempPlasticStrain := c.plasticStrain
  tempReducedStrain := c.reducedStrain
  tempKappaP := c.kappaP
  tempAlpha := c.alpha
  tempEquivStrain := c.equivStrain
  tempEquivStrainTension := c.equivStrainTension
  tempEquivStrainCompression := c.equivStrainCompression
  tempKappaDTension := c.kappaDTension
  tempKappaDCompression := c.kappaDCompression
  tempKappaDTensionOne := c.kappaDTensionOne
  tempKappaDCompressionOne := c.kappaDCompressionOne
  tempKappaDTensionTwo := c.kappaDTensionTwo
  tempKappaDCompressionTwo := c.kappaDCompressionTwo
  tempDamageTension := c.damageTension
  tempDamageCompression := c.damageCompression
  tempRateFactor := c.rateFactor
  tempRateStrain := c.rateStrain
  temp_state_flag := c.state_flag
  tempStressWork := c.stressWork
  tempDissWork := c.dissWork

/-- The committed record whose every member holds the value of its trial
counterpart; the characteristic length, which has no trial counterpart, is
given separately. -/
def TrialRecord.toCommitted {R : Type} (t : TrialRecord R) (le : R) : CommittedRecord R where
  le := le
  plasticStrain := t.tempPlasticStrain
  reducedStrain := t.tempReducedStrain
  kappaP := t.tempKappaP
  alpha := t.tempAlpha
  equivStrain := t.tempEquivStrain
  equivStrainTension := t.tempEquivStrainTension
  equivStrainCompression := t.tempEquivStrainCompression
  kappaDTension := t.tempKappaDTension
  kappaDCompression := t.tempKappaDCompression
  kappaDTensionOne := t.tempKappaDTensionOne
  kappaDCompressionOne := t.tempKappaDCompressionOne
  kappaDTensionTwo := t.tempKappaDTensionTwo
  kappaDCompressionTwo := t.tempKappaDCompressionTwo
  damageTension := t.tempDamageTension
  damageCompression := t.tempDamageCompression
  rateFactor := t.tempRateFactor
  rateStrain := t.tempRateStrain
  state_flag := t.temp_state_flag
  stressWork := t.tempStressWork
  dissWork := t.tempDissWork

/-! ## Start of increment and commit -/

namespace ConcreteDPM2Status

variable {R : Type}

/-- Modelled from the spec: the body of `ConcreteDPM2Status::initTempStatus`
(declared at header line 180) is not among the sources. Spec 4.6:
"initTemp: trial := committed (start of increment)". Every `temp` member
receives the value of its committed counterpart; nothing else is written. -/
def initTempStatus (s : ConcreteDPM2Status R) : ConcreteDPM2Status R :=
  { s with
    tempPlasticStrain := s.plasticStrain,
    tempReducedStrain := s.reducedStrain,
    tempKappaP := s.kappaP,
    tempAlpha := s.alpha,
    tempEquivStrain := s.equivStrain,
    tempEquivStrainTension := s.equivStrainTension,
    tempEquivStrainCompression := s.equivStrainCompression,
    tempKappaDTension := s.kappaDTension,
    tempKappaDCompression := s.kappaDCompression,
    tempKappaDTensionOne := s.kappaDTensionOne,
    tempKappaDCompressionOne := s.kappaDCompressionOne,
    tempKappaDTensionTwo := s.kappaDTensionTwo,
    tempKappaDCompressionTwo := s.kappaDCompressionTwo,
    tempDamageTension := s.damageTension,
    tempDamageCompression := s.damageCompression,
    tempRateFactor := s.rateFactor,
    tempRateStrain := s.rateStrain,
    temp_state_flag := s.state_flag,
    tempStressWork := s.stressWork,
    tempDissWork := s.dissWork }

/-- Modelled from the spec: the body of `ConcreteDPM2Status::updateYourself`
(declared at header line 181) is not among the sources. Spec 4.6:
"commit: committed := trial, atomically". Every committed member that has a
`temp` counterpart receives the value of that counterpart; nothing else is
written. -/
def updateYourself (s : ConcreteDPM2Status R) : ConcreteDPM2Status R :=
  { s with
    plasticStrain := s.tempPlasticStrain,
    reducedStrain := s.tempReducedStrain,
    kappaP := s.tempKappaP,
    alpha := s.tempAlpha,
    equivStrain := s.tempEquivStrain,
    equivStrainTension := s.tempEquivStrainTension,
    equivStrainCompression := s.tempEquivStrainCompression,
    kappaDTension := s.tempKappaDTension,
    kappaDCompression := s.tempKappaDCompression,
    kappaDTensionOne := s.tempKappaDTensionOne,
    kappaDCompressionOne := s.tempKappaDCompressionOne,
    kappaDTensionTwo := s.tempKappaDTensionTwo,
    kappaDCompressionTwo := s.tempKappaDCompressionTwo,
    damageTension := s.tempDamageTension,
    damageCompression := s.tempDamageCompression,
    rateFactor := s.tempRateFactor,
    rateStrain := s.tempRateStrain,
    state_flag := s.temp_state_flag,
    stressWork := s.tempStressWork,
    dissWork := s.tempDissWork }

end ConcreteDPM2Status

/-! ## Damage history (ratchet law) -/

/-- The equivalent-strain measures of one increment, one for each of the six
damage history variables (tension, compression, and their two stages). -/
structure EquivalentStrains (R : Type) where
  tension : R
  compression : R
  tensionOne : R
  compressionOne : R
  tensionTwo : R
  compressionTwo : R
  deriving DecidableEq, Repr

namespace ConcreteDPM2

variable {R : Type}

/-- Modelled from the spec: the body of `ConcreteDPM2::computeDamage` (declared
at header line 1008) is not among the sources; this is its update of the damage
history variables. Spec 4.4: "Each measure feeds an independent, monotonically
ratcheting history variable: κD = max(κD_previous, equivalentStrain)". The
previous value is read through the accessor of the committed member and the
new one is written through the mutator of the trial member. -/
def computeDamage [LinearOrder R] (e : EquivalentStrains R) (s : ConcreteDPM2Status R) :
    ConcreteDPM2Status R :=
  let s1 := s.letTempKappaDTensionBe (max s.giveKappaDTension e.tension)
  let s2 := s1.letTempKappaDCompressionBe (max s1.giveKappaDCompression e.compression)
  let s3 := s2.letTempKappaDTensionOneBe (max s2.giveKappaDTensionOne e.tensionOne)
  let s4 := s3.letTempKappaDCompressionOneBe (max s3.giveKappaDCompressionOne e.compressionOne)
  let s5 := s4.letTempKappaDTensionTwoBe (max s4.giveKappaDTensionTwo e.tensionTwo)
  s5.letTempKappaDCompressionTwoBe (max s5.giveKappaDCompressionTwo e.compressionTwo)

/-- One increment of the history: start of increment, damage history update,
commit. -/
def applyIncrement [LinearOrder R] (e : EquivalentStrains R) (s : ConcreteDPM2Status R) :
    ConcreteDPM2Status R :=
  (computeDamage e s.initTempStatus).updateYourself

/-- A strain history: the increments applied one after the other. -/
def applyHistory [LinearOrder R] (es : List (EquivalentStrains R))
    (s : ConcreteDPM2Status R) : ConcreteDPM2Status R :=
  es.foldl (fun st e => applyIncrement e st) s

end ConcreteDPM2

/-- Every stored damage history variable of `s` is at most the one of `t`. -/
def damageHistory_le {R : Type} [LE R] (s t : ConcreteDPM2Status R) : Prop :=
  s.giveKappaDTension ≤ t.giveKappaDTension ∧
  s.giveKappaDCompression ≤ t.giveKappaDCompression ∧
  s.giveKappaDTensionOne ≤ t.giveKappaDTensionOne ∧
  s.giveKappaDCompressionOne ≤ t.giveKappaDCompressionOne ∧
  s.giveKappaDTensionTwo ≤ t.giveKappaDTensionTwo ∧
  s.giveKappaDCompressionTwo ≤ t.giveKappaDCompressionTwo

/-! ## Regular stress return -/

/-- The enumeration `ConcreteDPM2::ConcreteDPM2_ReturnResult` (header line 591). -/
inductive ConcreteDPM2_ReturnResult where
  | RR_NotConverged
  | RR_Converged
  deriving DecidableEq, Repr

/-- The unknowns of the local system of the regular return: the volumetric
stress `sig` and the deviatoric radius `rho` of the corrected stress (its Lode
angle `theta` stays constant throughout the return, header line 727), the
hardening variable `kappa` and the plastic multiplier `deltaLambda`. -/
structure ReturnUnknowns (R : Type) where
  sig : R
  rho : R
  kappa : R
  deltaLambda : R
  deriving DecidableEq, Repr

/-- What `performRegularReturn` works with: the members `yieldTol` and
`newtonIter` of `ConcreteDPM2` (header lines 658-665), the yield function
`computeYieldValue(sig, rho, theta, tempKappa)` (declared at header line 787),
and the pieces of the local Newton iteration, none of whose bodies is among
the sources: the residual of the evolution law of kappa, the norm taken of the
residual pair, and one Newton update of the unknowns. -/
structure RegularReturnSystem (R : Type) where
  yieldTol : R
  newtonIter : Int
  computeYieldValue : R → R → R → R → R
  kappaResidual : R → ReturnUnknowns R → R
  residualNorm : R → R → R
  newtonUpdate : R → ReturnUnknowns R → ReturnUnknowns R

namespace RegularReturnSystem

variable {R : Type}

/-- The norm of the residual pair (yield value, residual of the evolution law
of kappa) at the unknowns `x`. -/
def normOfResiduals (m : RegularReturnSystem R) (theta : R) (x : ReturnUnknowns R) : R :=
  m.residualNorm (m.computeYieldValue x.sig x.rho theta x.kappa) (m.kappaResidual theta x)

/-- The unknowns after `k` Newton updates. -/
def iterate (m : RegularReturnSystem R) (theta : R) (k : Nat) (x : ReturnUnknowns R) :
    ReturnUnknowns R :=
  (m.newtonUpdate theta)^[k] x

/-- The Newton loop with `n` updates left: stop with `RR_Converged` as soon as
the norm of the residuals is within the tolerance, stop with `RR_NotConverged`
when it is not and no update is left. -/
def newtonLoop [LinearOrder R] (m : RegularReturnSystem R) (theta : R) :
    Nat → ReturnUnknowns R → ConcreteDPM2_ReturnResult × ReturnUnknowns R
  | 0, x =>
    if m.normOfResiduals theta x ≤ m.yieldTol then (ConcreteDPM2_ReturnResult.RR_Converged, x)
    else (ConcreteDPM2_ReturnResult.RR_NotConverged, x)
  | n + 1, x =>
    if m.normOfResiduals theta x ≤ m.yieldTol then (ConcreteDPM2_ReturnResult.RR_Converged, x)
    else newtonLoop m theta n (m.newtonUpdate theta x)

/-- Modelled from the spec: the body of `ConcreteDPM2::performRegularReturn`
(declared at header line 729) is not among the sources. Spec 4.2: "The local
system solved is the residual pair {f(updated invariants, κ) = 0,
κ-evolution-law(Δλ, ductility measure) = 0}, solved by Newton iteration ...
Convergence tolerance and max-iteration count are configuration parameters;
exceeding the cap reports a non-converged result to the caller"; spec 5: the
loop is "terminated by (a) convergence within tolerance, (b) exceeding the
iteration cap". The result is the value assigned to `returnResult` and the
final unknowns, from which the returned stress is formed. -/
def performRegularReturn [LinearOrder R] (m : RegularReturnSystem R) (theta : R)
    (x0 : ReturnUnknowns R) : ConcreteDPM2_ReturnResult × ReturnUnknowns R :=
  m.newtonLoop theta m.newtonIter.toNat x0

end RegularReturnSystem

/-- A system that converges: the yield value is the volumetric stress, each
Newton update halves it, the norm is the larger absolute value. -/
def halvingSystem : RegularReturnSystem ℚ where
  yieldTol := 1 / 10
  newtonIter := 10
  computeYieldValue := fun sig _ _ _ => sig
  kappaResidual := fun _ _ => 0
  residualNorm := fun a b => max |a| |b|
  newtonUpdate := fun _ x => { x with sig := x.sig / 2 }

/-- A system that never converges: the yield value is the volumetric stress
and the Newton update leaves the unknowns where they are. -/
def stalledSystem : RegularReturnSystem ℚ where
  yieldTol := 1 / 1000000
  newtonIter := 100
  computeYieldValue := fun sig _ _ _ => sig
  kappaResidual := fun _ _ => 0
  residualNorm := fun a b => max |a| |b|
  newtonUpdate := fun _ x => x

/-! ## Context stream -/

/-- One entry of a `DataStream`: a double or an int. -/
inductive DataItem (R : Type) where
  | real (x : R)
  | int (n : Int)
  deriving DecidableEq, Repr

/-- The class `DataStream`, as the sequence of the entries written to it. -/
abbrev DataStream (R : Type) : Type := List (DataItem R)

namespace DataStream

variable {R : Type}

/-- Store an array: its size, then its entries. -/
def writeArray (a : FloatArray R) : DataStream R :=
  DataItem.int a.length :: a.map DataItem.real

/-- Read one double; fails on an int or at the end of the stream. -/
def readReal : DataStream R → Option (R × DataStream R)
  | DataItem.real x :: st => some (x, st)
  | _ => none

/-- Read one int; fails on a double or at the end of the stream. -/
def readInt : DataStream R → Option (Int × DataStream R)
  | DataItem.int n :: st => some (n, st)
  | _ => none

/-- Read `n` doubles. -/
def readReals : Nat → DataStream R → Option (FloatArray R × DataStream R)
  | 0, st => some ([], st)
  | n + 1, st =>
    (readReal st).bind fun p => (readReals n p.2).bind fun q => some (p.1 :: q.1, q.2)

/-- Restore an array: its size, then that many entries; fails on a negative
size. -/
def readArray (st : DataStream R) : Option (FloatArray R × DataStream R) :=
  (readInt st).bind fun p => if 0 ≤ p.1 then readReals p.1.toNat p.2 else none

end DataStream

namespace CommittedRecord

variable {R : Type}

/-- The entries of a committed record, member after member. -/
def store (c : CommittedRecord R) : DataStream R :=
  DataStream.writeArray c.plasticStrain ++ (DataStream.writeArray c.reducedStrain ++
    [DataItem.real c.kappaP,
     DataItem.real c.le,
     DataItem.real c.alpha,
     DataItem.real c.equivStrain,
     DataItem.real c.equivStrainTension,
     DataItem.real c.equivStrainCompression,
     DataItem.real c.kappaDTension,
     DataItem.real c.kappaDCompression,
     DataItem.real c.kappaDTensionOne,
     DataItem.real c.kappaDCompressionOne,
     DataItem.real c.kappaDTensionTwo,
     DataItem.real c.kappaDCompressionTwo,
     DataItem.real c.damageTension,
     DataItem.real c.damageCompression,
     DataItem.real c.rateFactor,
     DataItem.real c.rateStrain,
     DataItem.int c.state_flag,
     DataItem.real c.stressWork,
     DataItem.real c.dissWork])

/-- Read the scalar members of a committed record, in the order in which
`store` writes them, and return the record (with the two arrays given) and the
rest of the stream; fails when an entry is missing or of the wrong kind. -/
def restoreScalars (plasticStrain reducedStrain : FloatArray R) :
    DataStream R → Option (CommittedRecord R × DataStream R)
  | DataItem.real kappaP ::
    DataItem.real le ::
    DataItem.real alpha ::
    DataItem.real equivStrain ::
    DataItem.real equivStrainTension ::
    DataItem.real equivStrainCompression ::
    DataItem.real kappaDTension ::
    DataItem.real kappaDCompression ::
    DataItem.real kappaDTensionOne ::
    DataItem.real kappaDCompressionOne ::
    DataItem.real kappaDTensionTwo ::
    DataItem.real kappaDCompressionTwo ::
    DataItem.real damageTension ::
    DataItem.real damageCompression ::
    DataItem.real rateFactor ::
    DataItem.real rateStrain ::
    DataItem.int state_flag ::
    DataItem.real stressWork ::
    DataItem.real dissWork :: rest =>
    some ({ plasticStrain := plasticStrain,
            reducedStrain := reducedStrain,
            kappaP := kappaP,
            le := le,
            alpha := alpha,
            equivStrain := equivStrain,
            equivStrainTension := equivStrainTension,
            equivStrainCompression := equivStrainCompression,
            kappaDTension := kappaDTension,
            kappaDCompression := kappaDCompression,
            kappaDTensionOne := kappaDTensionOne,
            kappaDCompressionOne := kappaDCompressionOne,
            kappaDTensionTwo := kappaDTensionTwo,
            kappaDCompressionTwo := kappaDCompressionTwo,
            damageTension := damageTension,
            damageCompression := damageCompression,
            rateFactor := rateFactor,
            rateStrain := rateStrain,
            state_flag := state_flag,
            stressWork := stressWork,
            dissWork := dissWork }, rest)
  | _ => none

/-- Read a committed record, member after member, and return it with the rest
of the stream; fails when an entry is missing or of the wrong kind. -/
def restore (st : DataStream R) : Option (CommittedRecord R × DataStream R) :=
  (DataStream.readArray st).bind fun p0 =>
    (DataStream.readArray p0.2).bind fun p1 => restoreScalars p0.1 p1.1 p1.2

end CommittedRecord

namespace ConcreteDPM2Status

variable {R : Type}

/-- Modelled from the spec: the body of `ConcreteDPM2Status::saveContext`
(declared at header line 183) is not among the sources. Spec 6: "the full
committed GaussPointStatus record must be serializable and restorable
byte-for-byte". The committed record is appended to the stream; the result is
the stream after the call. -/
def saveContext (s : ConcreteDPM2Status R) (stream : DataStream R) : DataStream R :=
  stream ++ s.committed.store

/-- Overwrite the committed members of a status with a given committed
record; the other members keep their values. -/
def withCommitted (s : ConcreteDPM2Status R) (c : CommittedRecord R) : ConcreteDPM2Status R :=
  { s with
    plasticStrain := c.plasticStrain,
    reducedStrain := c.reducedStrain,
    kappaP := c.kappaP,
    le := c.le,
    alpha := c.alpha,
    equivStrain := c.equivStrain,
    equivStrainTension := c.equivStrainTension,
    equivStrainCompression := c.equivStrainCompression,
    kappaDTension := c.kappaDTension,
    kappaDCompression := c.kappaDCompression,
    kappaDTensionOne := c.kappaDTensionOne,
    kappaDCompressionOne := c.kappaDCompressionOne,
    kappaDTensionTwo := c.kappaDTensionTwo,
    kappaDCompressionTwo := c.kappaDCompressionTwo,
    damageTension := c.damageTension,
    damageCompression := c.damageCompression,
    rateFactor := c.rateFactor,
    rateStrain := c.rateStrain,
    state_flag := c.state_flag,
    stressWork := c.stressWork,
    dissWork := c.dissWork }

/-- Modelled from the spec: the body of `ConcreteDPM2Status::restoreContext`
(declared at header line 184) is not among the sources. Spec 6, as for
`saveContext`: the committed record is read from the front of the stream and
overwrites the committed members of the status; the result is the status and
the rest of the stream, or `none` when reading fails. -/
def restoreContext (s : ConcreteDPM2Status R) (stream : DataStream R) :
    Option (ConcreteDPM2Status R × DataStream R) :=
  (CommittedRecord.restore stream).bind fun c => some (s.withCommitted c.1, c.2)

end ConcreteDPM2Status

/-! ## Input fields for ConcreteDPM2 -/

/-! The macros `_IFT_ConcreteDPM2_*` of header lines 51-73, each under its
name without the leading underscore. -/

def IFT_ConcreteDPM2_Name : String := "con2dpm"
def IFT_ConcreteDPM2_fc : String := "fc"
def IFT_ConcreteDPM2_ft : String := "ft"
def IFT_ConcreteDPM2_ecc : String := "ecc"
def IFT_ConcreteDPM2_kinit : String := "kinit"
def IFT_ConcreteDPM2_ahard : String := "ahard"
def IFT_ConcreteDPM2_bhard : String := "bhard"
def IFT_ConcreteDPM2_chard : String := "chard"
def IFT_ConcreteDPM2_dhard : String := "dhard"
def IFT_ConcreteDPM2_dilation : String := "dilation"
def IFT_ConcreteDPM2_asoft : String := "asoft"
def IFT_ConcreteDPM2_hp : String := "hp"
def IFT_ConcreteDPM2_yieldtol : String := "yieldtol"
def IFT_ConcreteDPM2_newtoniter : String := "newtoniter"
def IFT_ConcreteDPM2_wf : String := "wf"
def IFT_ConcreteDPM2_efc : String := "efc"
def IFT_ConcreteDPM2_softeningType : String := "stype"
def IFT_ConcreteDPM2_ftOne : String := "ft1"
def IFT_ConcreteDPM2_wfOne : String := "wf1"
def IFT_ConcreteDPM2_rateFlag : String := "rateflag"
def IFT_ConcreteDPM2_deltatime : String := "deltat"
def IFT_ConcreteDPM2_helem : String := "helem"
def IFT_ConcreteDPM2_isoflag : String := "isoflag"

/-- Every input-field string of ConcreteDPM2, in the order of the header. -/
def IFT_ConcreteDPM2_all : List String :=
  [IFT_ConcreteDPM2_Name,
   IFT_ConcreteDPM2_fc,
   IFT_ConcreteDPM2_ft,
   IFT_ConcreteDPM2_ecc,
   IFT_ConcreteDPM2_kinit,
   IFT_ConcreteDPM2_ahard,
   IFT_ConcreteDPM2_bhard,
   IFT_ConcreteDPM2_chard,
   IFT_ConcreteDPM2_dhard,
   IFT_ConcreteDPM2_dilation,
   IFT_ConcreteDPM2_asoft,
   IFT_ConcreteDPM2_hp,
   IFT_ConcreteDPM2_yieldtol,
   IFT_ConcreteDPM2_newtoniter,
   IFT_ConcreteDPM2_wf,
   IFT_ConcreteDPM2_efc,
   IFT_ConcreteDPM2_softeningType,
   IFT_ConcreteDPM2_ftOne,
   IFT_ConcreteDPM2_wfOne,
   IFT_ConcreteDPM2_rateFlag,
   IFT_ConcreteDPM2_deltatime,
   IFT_ConcreteDPM2_helem,
   IFT_ConcreteDPM2_isoflag]

/-! ## Return type of the plasticity return -/

/-- The enumeration `ConcreteDPM2::ConcreteDPM2_ReturnType` (header line 588). -/
inductive ConcreteDPM2_ReturnType where
  | RT_Regular
  | RT_Tension
  | RT_Compression
  | RT_Auxiliary
  deriving DecidableEq, Repr

/-- Every enumerator of `ConcreteDPM2_ReturnType`, in declaration order. -/
def ConcreteDPM2_ReturnType.all : List ConcreteDPM2_ReturnType :=
  [RT_Regular, RT_Tension, RT_Compression, RT_Auxiliary]

/-- The identifier of an enumerator in the header. -/
def ConcreteDPM2_ReturnType.identifier : ConcreteDPM2_ReturnType → String
  | RT_Regular => "RT_Regular"
  | RT_Tension => "RT_Tension"
  | RT_Compression => "RT_Compression"
  | RT_Auxiliary => "RT_Auxiliary"

/-- The four return regimes as the specification lists them (spec 4.3:
"a finite-state selection {Elastic, Regular-Plastic, Vertex-Tension,
Vertex-Compression} per increment"). -/
inductive ReturnRegime where
  | Elastic
  | RegularPlastic
  | VertexTension
  | VertexCompression
  deriving DecidableEq, Repr

/-- The regime of the specification that an enumerator of the header stands
for, by its identifier: the regular return, the vertex return in tension and
the vertex return in compression; `RT_Auxiliary` stands for none of them. -/
def ConcreteDPM2_ReturnType.regime : ConcreteDPM2_ReturnType → Option ReturnRegime
  | RT_Regular => some ReturnRegime.RegularPlastic
  | RT_Tension => some ReturnRegime.VertexTension
  | RT_Compression => some ReturnRegime.VertexCompression
  | RT_Auxiliary => none

/-- Every enumerator of `state_flag_values`, in declaration order. -/
def state_flag_values.all : List state_flag_values :=
  [ConcreteDPM2_Elastic, ConcreteDPM2_Unloading, ConcreteDPM2_Plastic, ConcreteDPM2_Damage,
   ConcreteDPM2_PlasticDamage, ConcreteDPM2_VertexCompression, ConcreteDPM2_VertexTension,
   ConcreteDPM2_VertexCompressionDamage, ConcreteDPM2_VertexTensionDamage]

/-! ## LatticePlasticityDamageStatus -/

/-- The data members of `class LatticePlasticityDamageStatus`
(`latticeplasticitydamage.h`, lines 69-87), preceded by the member
`tempPlasticStrain` that `letTempPlasticStrainBe` writes: the class inherits it
from `LatticeMaterialStatus`, which is not among the sources. -/
structure LatticePlasticityDamageStatus (R : Type) where
  tempPlasticStrain : FloatArray R
  elasticStrain : FloatArray R
  tempElasticStrain : FloatArray R
  kappaP : R
  tempKappaP : R
  kappaDOne : R
  kappaDTwo : R
  tempKappaDOne : R
  tempKappaDTwo : R
  damage : R
  tempDamage : R
  compressionFlag : Int
  deriving DecidableEq, Repr

namespace LatticePlasticityDamageStatus

variable {R : Type}

/-! ### Inline accessors and mutators (header lines 94-133) -/

def giveKappaP (s : LatticePlasticityDamageStatus R) : R := s.kappaP
def giveTempKappaP (s : LatticePlasticityDamageStatus R) : R := s.tempKappaP
def giveKappaDOne (s : LatticePlasticityDamageStatus R) : R := s.kappaDOne
def giveKappaDTwo (s : LatticePlasticityDamageStatus R) : R := s.kappaDTwo
def giveTempKappaDOne (s : LatticePlasticityDamageStatus R) : R := s.tempKappaDOne
def giveTempKappaDTwo (s : LatticePlasticityDamageStatus R) : R := s.tempKappaDTwo
/-- The value assigned to the reference argument `answer`. -/
def giveTempElasticStrain (s : LatticePlasticityDamageStatus R) : FloatArray R :=
  s.tempElasticStrain
/-- The value assigned to the reference argument `answer`. -/
def giveElasticStrain (s : LatticePlasticityDamageStatus R) : FloatArray R :=
  s.elasticStrain
def letTempPlasticStrainBe (s : LatticePlasticityDamageStatus R) (v : FloatArray R) :
    LatticePlasticityDamageStatus R :=
  { s with tempPlasticStrain := v }
def letTempElasticStrainBe (s : LatticePlasticityDamageStatus R) (v : FloatArray R) :
    LatticePlasticityDamageStatus R :=
  { s with tempElasticStrain := v }
def setTempKappaP (s : LatticePlasticityDamageStatus R) (newKappa : R) :
    LatticePlasticityDamageStatus R :=
  { s with tempKappaP := newKappa }
def setTempKappaDOne (s : LatticePlasticityDamageStatus R) (newKappa : R) :
    LatticePlasticityDamageStatus R :=
  { s with tempKappaDOne := newKappa }
def setTempKappaDTwo (s : LatticePlasticityDamageStatus R) (newKappa : R) :
    LatticePlasticityDamageStatus R :=
  { s with tempKappaDTwo := newKappa }
def giveDamage (s : LatticePlasticityDamageStatus R) : R := s.damage
def giveTempDamage (s : LatticePlasticityDamageStatus R) : R := s.tempDamage
def setTempDamage (s : LatticePlasticityDamageStatus R) (newDamage : R) :
    LatticePlasticityDamageStatus R :=
  { s with tempDamage := newDamage }
def giveCompressionFlag (s : LatticePlasticityDamageStatus R) : Int := s.compressionFlag
def setCompressionFlag (s : LatticePlasticityDamageStatus R) (flag : Int) :
    LatticePlasticityDamageStatus R :=
  { s with compressionFlag := flag }

end LatticePlasticityDamageStatus

/-- One call of an inline mutating operation of `LatticePlasticityDamageStatus`,
with its argument. -/
inductive LatticeMutator (R : Type) where
  | letTempPlasticStrainBe (v : FloatArray R)
  | letTempElasticStrainBe (v : FloatArray R)
  | setTempKappaP (newKappa : R)
  | setTempKappaDOne (newKappa : R)
  | setTempKappaDTwo (newKappa : R)
  | setTempDamage (newDamage : R)
  | setCompressionFlag (flag : Int)
  deriving DecidableEq, Repr

/-- Perform the call on a status. -/
def LatticeMutator.apply {R : Type} :
    LatticeMutator R → LatticePlasticityDamageStatus R → LatticePlasticityDamageStatus R
  | letTempPlasticStrainBe v, s => s.letTempPlasticStrainBe v
  | letTempElasticStrainBe v, s => s.letTempElasticStrainBe v
  | setTempKappaP newKappa, s => s.setTempKappaP newKappa
  | setTempKappaDOne newKappa, s => s.setTempKappaDOne newKappa
  | setTempKappaDTwo newKappa, s => s.setTempKappaDTwo newKappa
  | setTempDamage newDamage, s => s.setTempDamage newDamage
  | setCompressionFlag flag, s => s.setCompressionFlag flag

/-! ## Plastic strain measures of ConcreteDPM2Status -/

namespace ConcreteDPM2Status

variable {R : Type}

/-- The accessor `giveVolumetricPlasticStrain` (header lines 223-226):
`1. / 3. * ( plasticStrain(0) + plasticStrain(1) + plasticStrain(2) )`.
The element access `plasticStrain(i)` has a value only for `i` below the size
of the array; without it there is no result. -/
def giveVolumetricPlasticStrain [Field R] (s : ConcreteDPM2Status R) : Option R :=
  match s.plasticStrain[0]?, s.plasticStrain[1]?, s.plasticStrain[2]? with
  | some p0, some p1, some p2 => some (1 / 3 * (p0 + p1 + p2))
  | _, _, _ => none

/-- The accessor `giveTempVolumetricPlasticStrain` (header lines 357-358), on
`tempPlasticStrain` as `giveVolumetricPlasticStrain` is on `plasticStrain`. -/
def giveTempVolumetricPlasticStrain [Field R] (s : ConcreteDPM2Status R) : Option R :=
  match s.tempPlasticStrain[0]?, s.tempPlasticStrain[1]?, s.tempPlasticStrain[2]? with
  | some p0, some p1, some p2 => some (1 / 3 * (p0 + p1 + p2))
  | _, _, _ => none

/-- The accessor `giveDeviatoricPlasticStrainNorm` (header lines 212-217):
`dev = computeDeviator(plasticStrain)` and the result is
`sqrt( .5 * ( 2. * dev[0] * dev[0] + 2. * dev[1] * dev[1] + 2. * dev[2] * dev[2]
+ dev[3] * dev[3] + dev[4] * dev[4] + dev[5] * dev[5] ) )`.
`StructuralMaterial::computeDeviator`, which yields the six components of the
deviator, is not among the sources and is a parameter, as is the square root
of the scalar type. -/
def giveDeviatoricPlasticStrainNorm [Field R] (sqrt : R → R)
    (computeDeviator : FloatArray R → Fin 6 → R) (s : ConcreteDPM2Status R) : R :=
  let dev := computeDeviator s.plasticStrain
  sqrt (1 / 2 * (2 * dev 0 * dev 0 + 2 * dev 1 * dev 1 + 2 * dev 2 * dev 2 +
    dev 3 * dev 3 + dev 4 * dev 4 + dev 5 * dev 5))

end ConcreteDPM2Status

/-! ## Data members by name -/

/-- The data members of `class ConcreteDPM2Status`, by name. -/
inductive StatusMember where
  | plasticStrain
  | tempPlasticStrain
  | reducedStrain
  | tempReducedStrain
  | kappaP
  | tempKappaP
  | kappaPPeak
  | le
  | alpha
  | tempAlpha
  | equivStrain
  | tempEquivStrain
  | equivStrainTension
  | tempEquivStrainTension
  | equivStrainCompression
  | tempEquivStrainCompression
  | kappaDTension
  | tempKappaDTension
  | kappaDCompression
  | tempKappaDCompression
  | kappaDTensionOne
  | tempKappaDTensionOne
  | kappaDCompressionOne
  | tempKappaDCompressionOne
  | kappaDTensionTwo
  | tempKappaDTensionTwo
  | kappaDCompressionTwo
  | tempKappaDCompressionTwo
  | damageTension
  | tempDamageTension
  | damageCompression
  | tempDamageCompression
  | deltaEquivStrain
  | rateFactor
  | tempRateFactor
  | rateStrain
  | tempRateStrain
  | state_flag
  | temp_state_flag
  | stressWork
  | tempStressWork
  | dissWork
  | tempDissWork
  deriving DecidableEq, Repr

/-- The value of a data member: a double, an array of doubles or an int. -/
inductive MemberValue (R : Type) where
  | real (x : R)
  | array (a : FloatArray R)
  | int (n : Int)
  deriving DecidableEq, Repr

/-- The value a status holds in the named data member. -/
def ConcreteDPM2Status.read {R : Type} (s : ConcreteDPM2Status R) :
    StatusMember → MemberValue R
  | StatusMember.plasticStrain => MemberValue.array s.plasticStrain
  | StatusMember.tempPlasticStrain => MemberValue.array s.tempPlasticStrain
  | StatusMember.reducedStrain => MemberValue.array s.reducedStrain
  | StatusMember.tempReducedStrain => MemberValue.array s.tempReducedStrain
  | StatusMember.kappaP => MemberValue.real s.kappaP
  | StatusMember.tempKappaP => MemberValue.real s.tempKappaP
  | StatusMember.kappaPPeak => MemberValue.real s.kappaPPeak
  | StatusMember.le => MemberValue.real s.le
  | StatusMember.alpha => MemberValue.real s.alpha
  | StatusMember.tempAlpha => MemberValue.real s.tempAlpha
  | StatusMember.equivStrain => MemberValue.real s.equivStrain
  | StatusMember.tempEquivStrain => MemberValue.real s.tempEquivStrain
  | StatusMember.equivStrainTension => MemberValue.real s.equivStrainTension
  | StatusMember.tempEquivStrainTension => MemberValue.real s.tempEquivStrainTension
  | StatusMember.equivStrainCompression => MemberValue.real s.equivStrainCompression
  | StatusMember.tempEquivStrainCompression => MemberValue.real s.tempEquivStrainCompression
  | StatusMember.kappaDTension => MemberValue.real s.kappaDTension
  | StatusMember.tempKappaDTension => MemberValue.real s.tempKappaDTension
  | StatusMember.kappaDCompression => MemberValue.real s.kappaDCompression
  | StatusMember.tempKappaDCompression => MemberValue.real s.tempKappaDCompression
  | StatusMember.kappaDTensionOne => MemberValue.real s.kappaDTensionOne
  | StatusMember.tempKappaDTensionOne => MemberValue.real s.tempKappaDTensionOne
  | StatusMember.kappaDCompressionOne => MemberValue.real s.kappaDCompressionOne
  | StatusMember.tempKappaDCompressionOne => MemberValue.real s.tempKappaDCompressionOne
  | StatusMember.kappaDTensionTwo => MemberValue.real s.kappaDTensionTwo
  | StatusMember.tempKappaDTensionTwo => MemberValue.real s.tempKappaDTensionTwo
  | StatusMember.kappaDCompressionTwo => MemberValue.real s.kappaDCompressionTwo
  | StatusMember.tempKappaDCompressionTwo => MemberValue.real s.tempKappaDCompressionTwo
  | StatusMember.damageTension => MemberValue.real s.damageTension
  | StatusMember.tempDamageTension => MemberValue.real s.tempDamageTension
  | StatusMember.damageCompression => MemberValue.real s.damageCompression
  | StatusMember.tempDamageCompression => MemberValue.real s.tempDamageCompression
  | StatusMember.deltaEquivStrain => MemberValue.real s.deltaEquivStrain
  | StatusMember.rateFactor => MemberValue.real s.rateFactor
  | StatusMember.tempRateFactor => MemberValue.real s.tempRateFactor
  | StatusMember.rateStrain => MemberValue.real s.rateStrain
  | StatusMember.tempRateStrain => MemberValue.real s.tempRateStrain
  | StatusMember.state_flag => MemberValue.int s.state_flag
  | StatusMember.temp_state_flag => MemberValue.int s.temp_state_flag
  | StatusMember.stressWork => MemberValue.real s.stressWork
  | StatusMember.tempStressWork => MemberValue.real s.tempStressWork
  | StatusMember.dissWork => MemberValue.real s.dissWork
  | StatusMember.tempDissWork => MemberValue.real s.tempDissWork

/-- The data member that the body of the mutator assigns. -/
def Mutator.member {R : Type} : Mutator R → StatusMember
  | letTempRateStrainBe _ => StatusMember.tempRateStrain
  | letTempAlphaBe _ => StatusMember.tempAlpha
  | letTempPlasticStrainBe _ => StatusMember.tempPlasticStrain
  | letTempReducedStrainBe _ => StatusMember.tempReducedStrain
  | letTempKappaPBe _ => StatusMember.tempKappaP
  | letTempKappaDTensionBe _ => StatusMember.tempKappaDTension
  | letTempKappaDCompressionBe _ => StatusMember.tempKappaDCompression
  | letTempKappaDTensionOneBe _ => StatusMember.tempKappaDTensionOne
  | letTempKappaDCompressionOneBe _ => StatusMember.tempKappaDCompressionOne
  | letTempKappaDTensionTwoBe _ => StatusMember.tempKappaDTensionTwo
  | letTempKappaDCompressionTwoBe _ => StatusMember.tempKappaDCompressionTwo
  | letTempDamageTensionBe _ => StatusMember.tempDamageTension
  | letTempDamageCompressionBe _ => StatusMember.tempDamageCompression
  | letTempRateFactorBe _ => StatusMember.tempRateFactor
  | letTempEquivStrainBe _ => StatusMember.tempEquivStrain
  | letTempEquivStrainTensionBe _ => StatusMember.tempEquivStrainTension
  | letTempEquivStrainCompressionBe _ => StatusMember.tempEquivStrainCompression
  | setLe _ => StatusMember.le
  | letTempStateFlagBe _ => StatusMember.temp_state_flag
  | letKappaPPeakBe _ => StatusMember.kappaPPeak
  | setTempStressWork _ => StatusMember.tempStressWork
  | setTempDissWork _ => StatusMember.tempDissWork

/-- The value that the body of the mutator assigns: its argument. -/
def Mutator.value {R : Type} : Mutator R → MemberValue R
  | letTempRateStrainBe v => MemberValue.real v
  | letTempAlphaBe v => MemberValue.real v
  | letTempPlasticStrainBe v => MemberValue.array v
  | letTempReducedStrainBe v => MemberValue.array v
  | letTempKappaPBe v => MemberValue.real v
  | letTempKappaDTensionBe v => MemberValue.real v
  | letTempKappaDCompressionBe v => MemberValue.real v
  | letTempKappaDTensionOneBe v => MemberValue.real v
  | letTempKappaDCompressionOneBe v => MemberValue.real v
  | letTempKappaDTensionTwoBe v => MemberValue.real v
  | letTempKappaDCompressionTwoBe v => MemberValue.real v
  | letTempDamageTensionBe v => MemberValue.real v
  | letTempDamageCompressionBe v => MemberValue.real v
  | letTempRateFactorBe v => MemberValue.real v
  | letTempEquivStrainBe v => MemberValue.real v
  | letTempEquivStrainTensionBe v => MemberValue.real v
  | letTempEquivStrainCompressionBe v => MemberValue.real v
  | setLe ls => MemberValue.real ls
  | letTempStateFlagBe v => MemberValue.int v
  | letKappaPPeakBe kappa => MemberValue.real kappa
  | setTempStressWork w => MemberValue.real w
  | setTempDissWork w => MemberValue.real w

/-! ## MITC4 shell element -/

/-- The data members of `class MITC4Shell` (`mitc4.h`, lines 80-82). -/
structure MITC4Shell (R : Type) where
  GtoLRotationMatrix : List (FloatArray R)
  nPointsXY : Int
  nPointsZ : Int
  directorType : Int
  drillCoeff : R
  deriving DecidableEq, Repr

/-- The member function `computeNumberOfDofs` (`mitc4.h`, line 144): `return 24;`. -/
def MITC4Shell.computeNumberOfDofs {R : Type} (_e : MITC4Shell R) : Int := 24

/-- The member function `computeNumberOfGlobalDofs` (`mitc4.h`, line 145):
`return 24;`. -/
def MITC4Shell.computeNumberOfGlobalDofs {R : Type} (_e : MITC4Shell R) : Int := 24

/-! ## Symmetry of the characteristic matrix -/

/-- The data members of `class ConcreteDPM2` (header lines 589-679), except
`linearElasticMaterial`, whose class is not among the sources. -/
structure ConcreteDPM2 (R : Type) where
  returnType : ConcreteDPM2_ReturnType
  returnResult : ConcreteDPM2_ReturnResult
  fc : R
  ft : R
  ecc : R
  isotropicFlag : Int
  e0 : R
  AHard : R
  BHard : R
  CHard : R
  DHard : R
  hardeningModulus : R
  ASoft : R
  yieldHardPrimePeak : R
  yieldHardInitial : R
  dilationConst : R
  m : R
  mQ : R
  helem : R
  eM : R
  gM : R
  kM : R
  nu : R
  efCompression : R
  wf : R
  wfOne : R
  ftOne : R
  yieldTol : R
  yieldTolDamage : R
  newtonIter : Int
  softeningType : Int
  deltaTime : R
  strainRateFlag : Int
  deriving DecidableEq, Repr

/-- The member function `ConcreteDPM2::isCharacteristicMtrxSymmetric`
(header line 1079): `return false;`. The enumeration `MatResponseMode` of its
argument is not among the sources and is a type parameter. -/
def ConcreteDPM2.isCharacteristicMtrxSymmetric {R MatResponseMode : Type}
    (_mat : ConcreteDPM2 R) (_rMode : MatResponseMode) : Bool := false

/-- The enumeration `LatticePlasticityDamage::LatticePlasticityDamage_ReturnResult`
(`latticeplasticitydamage.h`, line 155). -/
inductive LatticePlasticityDamage_ReturnResult where
  | RR_NotConverged
  | RR_Converged
  deriving DecidableEq, Repr

/-- The data members of `class LatticePlasticityDamage`
(`latticeplasticitydamage.h`, lines 156-203). -/
structure LatticePlasticityDamage (R : Type) where
  returnResult : LatticePlasticityDamage_ReturnResult
  initialYieldStress : R
  ft : R
  fc : R
  frictionAngleOne : R
  frictionAngleTwo : R
  flowAngleOne : R
  flowAngleTwo : R
  wf : R
  softeningType : Int
  ftOne : R
  wfOne : R
  aHard : R
  yieldTol : R
  newtonIter : Int
  numberOfSubIncrements : Int
  damageFlag : Int
  deriving DecidableEq, Repr

/-- The member function `LatticePlasticityDamage::isCharacteristicMtrxSymmetric`
(`latticeplasticitydamage.h`, line 216): `return false;`. The enumeration
`MatResponseMode` of its argument is not among the sources and is a type
parameter. -/
def LatticePlasticityDamage.isCharacteristicMtrxSymmetric {R MatResponseMode : Type}
    (_mat : LatticePlasticityDamage R) (_rMode : MatResponseMode) : Bool := false

/-! ## Theorems -/

section StatusTheorems

variable {R : Type}

/-- C1 (as amended): every inline mutator of `ConcreteDPM2Status` other than
`setLe` leaves the whole committed record unchanged, for every argument and
every status; `setLe ls` overwrites the characteristic length `le` with `ls`
and leaves every other committed value unchanged. -/
theorem mutator_committed_frame (m : Mutator R) (s : ConcreteDPM2Status R) :
    (m.isSetLe = false → (m.apply s).committed = s.committed) ∧
    (∀ ls, m = Mutator.setLe ls →
      (m.apply s).committed = { s.committed with le := ls }) := by
  constructor
  · intro h
    cases m <;> first | rfl | simp [Mutator.isSetLe] at h
  · rintro ls rfl
    rfl

/-- Witness for `mutator_committed_frame`: a trial write on the default
status, and a `setLe` call on it. -/
theorem mutator_committed_frame_witness :
    ((Mutator.letTempDamageTensionBe (1 / 2 : ℚ)).apply
        (ConcreteDPM2Status.defaultInit ℚ)).committed
      = (ConcreteDPM2Status.defaultInit ℚ).committed ∧
    ((Mutator.setLe (5 : ℚ)).apply (ConcreteDPM2Status.defaultInit ℚ)).committed
      = { (ConcreteDPM2Status.defaultInit ℚ).committed with le := 5 } :=
  ⟨(mutator_committed_frame (Mutator.letTempDamageTensionBe (1 / 2 : ℚ))
      (ConcreteDPM2Status.defaultInit ℚ)).1 rfl,
   (mutator_committed_frame (Mutator.setLe (5 : ℚ))
      (ConcreteDPM2Status.defaultInit ℚ)).2 5 rfl⟩

/-- C1 fails as stated: `setLe(5)` on the default-initialised status changes
the committed characteristic length `le` from 0 to 5. -/
theorem setLe_changes_committed_le :
    (ConcreteDPM2Status.defaultInit ℚ).committed.le = 0 ∧
    ((Mutator.setLe (5 : ℚ)).apply (ConcreteDPM2Status.defaultInit ℚ)).committed.le = 5 ∧
    ((Mutator.setLe (5 : ℚ)).apply (ConcreteDPM2Status.defaultInit ℚ)).committed
      ≠ (ConcreteDPM2Status.defaultInit ℚ).committed := by
  refine ⟨rfl, rfl, ?_⟩
  intro h
  have h2 := congrArg CommittedRecord.le h
  have h3 : (5 : ℚ) = 0 := h2
  norm_num at h3

/-- C2: after `initTempStatus` every trial member equals its committed
counterpart (the trial record is the committed record, member by member, in
particular for the members the claim names), and the committed record is the
one before the call, so discarding a trial is a no-op on the committed record. -/
theorem initTempStatus_trial_eq_committed (s : ConcreteDPM2Status R) :
    s.initTempStatus.trial = s.initTempStatus.committed.toTrial ∧
    s.initTempStatus.giveTempPlasticStrain = s.givePlasticStrain ∧
    s.initTempStatus.giveTempKappaP = s.giveKappaP ∧
    s.initTempStatus.tempAlpha = s.giveAlpha ∧
    s.initTempStatus.tempKappaDTension = s.giveKappaDTension ∧
    s.initTempStatus.tempKappaDCompression = s.giveKappaDCompression ∧
    s.initTempStatus.tempKappaDTensionOne = s.giveKappaDTensionOne ∧
    s.initTempStatus.tempKappaDCompressionOne = s.giveKappaDCompressionOne ∧
    s.initTempStatus.tempKappaDTensionTwo = s.giveKappaDTensionTwo ∧
    s.initTempStatus.tempKappaDCompressionTwo = s.giveKappaDCompressionTwo ∧
    s.initTempStatus.giveTempDamageTension = s.giveDamageTension ∧
    s.initTempStatus.giveTempDamageCompression = s.giveDamageCompression ∧
    s.initTempStatus.giveTempRateFactor = s.giveRateFactor ∧
    s.initTempStatus.giveTempStateFlag = s.giveStateFlag ∧
    s.initTempStatus.giveTempStressWork = s.giveStressWork ∧
    s.initTempStatus.giveTempDissWork = s.giveDissWork ∧
    s.initTempStatus.committed = s.committed := by
  refine ⟨rfl, rfl, rfl, rfl, rfl, rfl, rfl, rfl, rfl, rfl, rfl, rfl, rfl, rfl, rfl, rfl, rfl⟩

/-- C3 (as amended): after `updateYourself` every committed member equals the
value its trial counterpart held before the call and the trial record is
unchanged (`le`, which has no trial counterpart, keeps its value); of the
other operations, `initTempStatus` and every inline mutator except `setLe`
leave the committed record unchanged, while `setLe ls` overwrites the
committed characteristic length `le` with `ls` and nothing else of the
committed record. -/
theorem updateYourself_commits_trial (s : ConcreteDPM2Status R) :
    s.updateYourself.committed = s.trial.toCommitted s.giveLe ∧
    s.updateYourself.trial = s.trial ∧
    s.initTempStatus.committed = s.committed ∧
    (∀ m : Mutator R, m.isSetLe = false → (m.apply s).committed = s.committed) ∧
    (∀ ls : R, (s.setLe ls).committed = { s.committed with le := ls }) := by
  refine ⟨rfl, rfl, rfl, ?_, fun _ => rfl⟩
  intro m h
  cases m <;> first | rfl | simp [Mutator.isSetLe] at h

/-- Witness for `updateYourself_commits_trial`: a trial hardening variable is
written, committed, and a later trial write leaves the committed value alone. -/
theorem updateYourself_commits_trial_witness :
    (((ConcreteDPM2Status.defaultInit ℚ).letTempKappaPBe (1 / 4)).updateYourself).giveKappaP
      = 1 / 4 ∧
    ((Mutator.letTempKappaPBe (3 / 4 : ℚ)).apply
        ((ConcreteDPM2Status.defaultInit ℚ).letTempKappaPBe (1 / 4)).updateYourself).committed
      = (((ConcreteDPM2Status.defaultInit ℚ).letTempKappaPBe (1 / 4)).updateYourself).committed :=
  ⟨congrArg CommittedRecord.kappaP
      (updateYourself_commits_trial
        ((ConcreteDPM2Status.defaultInit ℚ).letTempKappaPBe (1 / 4))).1,
   (updateYourself_commits_trial
      ((ConcreteDPM2Status.defaultInit ℚ).letTempKappaPBe (1 / 4)).updateYourself).2.2.2.1
      (Mutator.letTempKappaPBe (3 / 4 : ℚ)) rfl⟩

/-- C3 fails as stated: on the status obtained by committing a trial
`tempKappaP = 1/4`, the operation `setLe(10)`, which is not a commit, changes
the committed record (its characteristic length goes from 0 to 10). -/
theorem committed_changed_without_commit :
    (((ConcreteDPM2Status.defaultInit ℚ).letTempKappaPBe (1 / 4)).updateYourself).committed.le
      = 0 ∧
    ((((ConcreteDPM2Status.defaultInit ℚ).letTempKappaPBe (1 / 4)).updateYourself).setLe
        10).committed.le = 10 ∧
    ((((ConcreteDPM2Status.defaultInit ℚ).letTempKappaPBe (1 / 4)).updateYourself).setLe
        10).committed
      ≠ (((ConcreteDPM2Status.defaultInit ℚ).letTempKappaPBe (1 / 4)).updateYourself).committed := by
  refine ⟨rfl, rfl, ?_⟩
  intro h
  have h2 : (10 : ℚ) = 0 := congrArg CommittedRecord.le h
  norm_num at h2

end StatusTheorems

/-! ### Damage history -/

section DamageTheorems

variable {R : Type}

/-- One increment stores the maximum of the stored value and the measure. -/
lemma applyIncrement_kappaD [LinearOrder R] (e : EquivalentStrains R)
    (s : ConcreteDPM2Status R) :
    (ConcreteDPM2.applyIncrement e s).giveKappaDTension = max s.giveKappaDTension e.tension ∧
    (ConcreteDPM2.applyIncrement e s).giveKappaDCompression
      = max s.giveKappaDCompression e.compression ∧
    (ConcreteDPM2.applyIncrement e s).giveKappaDTensionOne
      = max s.giveKappaDTensionOne e.tensionOne ∧
    (ConcreteDPM2.applyIncrement e s).giveKappaDCompressionOne
      = max s.giveKappaDCompressionOne e.compressionOne ∧
    (ConcreteDPM2.applyIncrement e s).giveKappaDTensionTwo
      = max s.giveKappaDTensionTwo e.tensionTwo ∧
    (ConcreteDPM2.applyIncrement e s).giveKappaDCompressionTwo
      = max s.giveKappaDCompressionTwo e.compressionTwo :=
  ⟨rfl, rfl, rfl, rfl, rfl, rfl⟩

lemma damageHistory_le_refl [Preorder R] (s : ConcreteDPM2Status R) : damageHistory_le s s :=
  ⟨le_refl _, le_refl _, le_refl _, le_refl _, le_refl _, le_refl _⟩

lemma damageHistory_le_trans [Preorder R] {s t u : ConcreteDPM2Status R}
    (h1 : damageHistory_le s t) (h2 : damageHistory_le t u) : damageHistory_le s u :=
  ⟨le_trans h1.1 h2.1, le_trans h1.2.1 h2.2.1, le_trans h1.2.2.1 h2.2.2.1,
   le_trans h1.2.2.2.1 h2.2.2.2.1, le_trans h1.2.2.2.2.1 h2.2.2.2.2.1,
   le_trans h1.2.2.2.2.2 h2.2.2.2.2.2⟩

lemma damageHistory_le_applyIncrement [LinearOrder R] (e : EquivalentStrains R)
    (s : ConcreteDPM2Status R) : damageHistory_le s (ConcreteDPM2.applyIncrement e s) := by
  obtain ⟨h1, h2, h3, h4, h5, h6⟩ := applyIncrement_kappaD e s
  refine ⟨?_, ?_, ?_, ?_, ?_, ?_⟩
  · rw [h1]; exact le_max_left _ _
  · rw [h2]; exact le_max_left _ _
  · rw [h3]; exact le_max_left _ _
  · rw [h4]; exact le_max_left _ _
  · rw [h5]; exact le_max_left _ _
  · rw [h6]; exact le_max_left _ _

lemma damageHistory_le_applyHistory [LinearOrder R] (es : List (EquivalentStrains R))
    (s : ConcreteDPM2Status R) : damageHistory_le s (ConcreteDPM2.applyHistory es s) := by
  induction es generalizing s with
  | nil => exact damageHistory_le_refl s
  | cons e es ih =>
    exact damageHistory_le_trans (damageHistory_le_applyIncrement e s)
      (ih (ConcreteDPM2.applyIncrement e s))

lemma applyHistory_append [LinearOrder R] (es1 es2 : List (EquivalentStrains R))
    (s : ConcreteDPM2Status R) :
    ConcreteDPM2.applyHistory (es1 ++ es2) s
      = ConcreteDPM2.applyHistory es2 (ConcreteDPM2.applyHistory es1 s) := by
  simp [ConcreteDPM2.applyHistory, List.foldl_append]

/-- C4: for any strain history (any sequence of increments, from any status),
the value of each of the six damage history variables stored after an
increment is the maximum of the previously stored value and the current
equivalent strain, and each stored variable is non-decreasing along the
sequence: its value after any prefix of the increments is at most its value
after any longer prefix. -/
theorem damage_history_ratchet [LinearOrder R] (s : ConcreteDPM2Status R)
    (e : EquivalentStrains R) (es1 es2 : List (EquivalentStrains R)) :
    ((ConcreteDPM2.applyIncrement e s).giveKappaDTension = max s.giveKappaDTension e.tension ∧
     (ConcreteDPM2.applyIncrement e s).giveKappaDCompression
       = max s.giveKappaDCompression e.compression ∧
     (ConcreteDPM2.applyIncrement e s).giveKappaDTensionOne
       = max s.giveKappaDTensionOne e.tensionOne ∧
     (ConcreteDPM2.applyIncrement e s).giveKappaDCompressionOne
       = max s.giveKappaDCompressionOne e.compressionOne ∧
     (ConcreteDPM2.applyIncrement e s).giveKappaDTensionTwo
       = max s.giveKappaDTensionTwo e.tensionTwo ∧
     (ConcreteDPM2.applyIncrement e s).giveKappaDCompressionTwo
       = max s.giveKappaDCompressionTwo e.compressionTwo) ∧
    damageHistory_le s (ConcreteDPM2.applyIncrement e s) ∧
    damageHistory_le (ConcreteDPM2.applyHistory es1 s)
      (ConcreteDPM2.applyHistory (es1 ++ es2) s) := by
  refine ⟨applyIncrement_kappaD e s, damageHistory_le_applyIncrement e s, ?_⟩
  rw [applyHistory_append]
  exact damageHistory_le_applyHistory es2 _

end DamageTheorems

/-! ### Regular return -/

section ReturnTheorems

variable {R : Type}

open RegularReturnSystem ConcreteDPM2_ReturnResult

lemma newtonLoop_converged [LinearOrder R] (m : RegularReturnSystem R) (theta : R) (n : Nat)
    (x : ReturnUnknowns R) (h : (m.newtonLoop theta n x).1 = RR_Converged) :
    m.normOfResiduals theta (m.newtonLoop theta n x).2 ≤ m.yieldTol := by
  induction n generalizing x with
  | zero =>
    by_cases hc : m.normOfResiduals theta x ≤ m.yieldTol
    · simpa only [newtonLoop, if_pos hc] using hc
    · simp only [newtonLoop, if_neg hc, reduceCtorEq] at h
  | succ n ih =>
    by_cases hc : m.normOfResiduals theta x ≤ m.yieldTol
    · simpa only [newtonLoop, if_pos hc] using hc
    · simp only [newtonLoop, if_neg hc] at h ⊢
      exact ih _ h

lemma newtonLoop_notConverged_iff [LinearOrder R] (m : RegularReturnSystem R) (theta : R)
    (n : Nat) (x : ReturnUnknowns R) :
    (m.newtonLoop theta n x).1 = RR_NotConverged ↔
      ∀ k, k ≤ n → m.yieldTol < m.normOfResiduals theta (m.iterate theta k x) := by
  induction n generalizing x with
  | zero =>
    unfold newtonLoop
    split_ifs with hc
    · simp only [reduceCtorEq, false_iff, not_forall]
      exact ⟨0, le_refl _, not_lt.mpr hc⟩
    · simp only [true_iff]
      intro k hk
      have hk0 : k = 0 := Nat.le_zero.mp hk
      subst hk0
      exact not_le.mp hc
  | succ n ih =>
    unfold newtonLoop
    split_ifs with hc
    · simp only [reduceCtorEq, false_iff, not_forall]
      exact ⟨0, Nat.zero_le _, not_lt.mpr hc⟩
    · rw [ih]
      constructor
      · intro h k hk
        cases k with
        | zero => exact not_le.mp hc
        | succ k =>
          have := h k (Nat.le_of_succ_le_succ hk)
          simpa [iterate, Function.iterate_succ_apply] using this
      · intro h k hk
        have := h (k + 1) (Nat.succ_le_succ hk)
        simpa [iterate, Function.iterate_succ_apply] using this

/-- C8: after a converged regular return (`returnResult = RR_Converged`), the
absolute value of `computeYieldValue` at the invariants of the returned stress
(the final `sig`, `rho` and the Lode angle `theta` of the return) and the
returned hardening variable is at most `yieldTol`, for every norm of the
residuals that bounds the absolute value of the yield residual. -/
theorem converged_regular_return_within_yieldTol [LinearOrderedField R]
    (m : RegularReturnSystem R) (hnorm : ∀ a b : R, |a| ≤ m.residualNorm a b)
    (theta : R) (x0 : ReturnUnknowns R)
    (hconv : (m.performRegularReturn theta x0).1 = RR_Converged) :
    |m.computeYieldValue (m.performRegularReturn theta x0).2.sig
        (m.performRegularReturn theta x0).2.rho theta
        (m.performRegularReturn theta x0).2.kappa| ≤ m.yieldTol :=
  le_trans (hnorm _ _) (newtonLoop_converged m theta _ x0 hconv)

lemma halvingSystem_converges :
    (halvingSystem.performRegularReturn 0 ⟨1, 0, 0, 0⟩).1 = RR_Converged := by
  have hn : halvingSystem.newtonIter.toNat = 10 := rfl
  rw [performRegularReturn, hn]
  simp only [newtonLoop, normOfResiduals, halvingSystem]
  have h4 : ¬ (|(1 / 4 : ℚ)| ≤ 1 / 10) := by rw [abs_of_pos (by norm_num)]; norm_num
  have h8 : ¬ (|(1 / 8 : ℚ)| ≤ 1 / 10) := by rw [abs_of_pos (by norm_num)]; norm_num
  have h16 : |(1 / 16 : ℚ)| ≤ 1 / 10 := by rw [abs_of_pos (by norm_num)]; norm_num
  norm_num [abs_of_pos, h4, h8, h16]

/-- Witness for `converged_regular_return_within_yieldTol`: the halving system
started at volumetric stress 1 converges, with a yield value within 1/10. -/
theorem converged_regular_return_within_yieldTol_witness :
    (halvingSystem.performRegularReturn 0 ⟨1, 0, 0, 0⟩).1 = RR_Converged ∧
    |halvingSystem.computeYieldValue (halvingSystem.performRegularReturn 0 ⟨1, 0, 0, 0⟩).2.sig
        (halvingSystem.performRegularReturn 0 ⟨1, 0, 0, 0⟩).2.rho 0
        (halvingSystem.performRegularReturn 0 ⟨1, 0, 0, 0⟩).2.kappa| ≤ 1 / 10 :=
  ⟨halvingSystem_converges,
   converged_regular_return_within_yieldTol halvingSystem (fun a b => le_max_left |a| |b|)
     0 ⟨1, 0, 0, 0⟩ halvingSystem_converges⟩

/-- C9: when the Newton iteration of the regular return uses up the iteration
cap `newtonIter` without meeting the tolerance (the norm of the residuals
exceeds `yieldTol` at the start and after each of the `newtonIter` updates),
the reported result is `RR_NotConverged` and not `RR_Converged`. -/
theorem newton_cap_reports_not_converged [LinearOrder R] (m : RegularReturnSystem R)
    (theta : R) (x0 : ReturnUnknowns R)
    (hcap : ∀ k, k ≤ m.newtonIter.toNat →
      m.yieldTol < m.normOfResiduals theta (m.iterate theta k x0)) :
    (m.performRegularReturn theta x0).1 = RR_NotConverged ∧
    (m.performRegularReturn theta x0).1 ≠ RR_Converged := by
  have h : (m.performRegularReturn theta x0).1 = RR_NotConverged :=
    (newtonLoop_notConverged_iff m theta _ x0).mpr hcap
  refine ⟨h, ?_⟩
  rw [h]
  exact fun hne => ConcreteDPM2_ReturnResult.noConfusion hne

lemma stalledSystem_never_within_tolerance :
    ∀ k, k ≤ stalledSystem.newtonIter.toNat →
      stalledSystem.yieldTol
        < stalledSystem.normOfResiduals 0 (stalledSystem.iterate 0 k ⟨1, 0, 0, 0⟩) := by
  intro k _
  have hfix : stalledSystem.iterate 0 k ⟨1, 0, 0, 0⟩ = ⟨1, 0, 0, 0⟩ :=
    Function.iterate_fixed rfl k
  rw [hfix]
  simp only [normOfResiduals, stalledSystem]
  norm_num

/-- Witness for `newton_cap_reports_not_converged`: the stalled system started
at volumetric stress 1 stays off the yield surface through all 100 updates and
reports `RR_NotConverged`. -/
theorem newton_cap_reports_not_converged_witness :
    (stalledSystem.performRegularReturn 0 ⟨1, 0, 0, 0⟩).1 = RR_NotConverged ∧
    (stalledSystem.performRegularReturn 0 ⟨1, 0, 0, 0⟩).1 ≠ RR_Converged :=
  newton_cap_reports_not_converged stalledSystem 0 ⟨1, 0, 0, 0⟩
    stalledSystem_never_within_tolerance

end ReturnTheorems

/-! ### Context round trip -/

section ContextTheorems

variable {R : Type}

lemma readReals_map_real (a : FloatArray R) (rest : DataStream R) :
    DataStream.readReals a.length (a.map DataItem.real ++ rest) = some (a, rest) := by
  induction a with
  | nil => rfl
  | cons x a ih =>
    simp only [List.length_cons, List.map_cons, List.cons_append, DataStream.readReals,
      DataStream.readReal, Option.some_bind, ih]

lemma readArray_writeArray (a : FloatArray R) (rest : DataStream R) :
    DataStream.readArray (DataStream.writeArray a ++ rest) = some (a, rest) := by
  simp only [DataStream.readArray, DataStream.writeArray, List.cons_append,
    DataStream.readInt, Option.some_bind, Int.toNat_ofNat, Int.ofNat_zero_le, if_true,
    readReals_map_real]

lemma restore_store (c : CommittedRecord R) (rest : DataStream R) :
    CommittedRecord.restore (c.store ++ rest) = some (c, rest) := by
  simp only [CommittedRecord.restore, CommittedRecord.store, List.append_assoc,
    readArray_writeArray, Option.some_bind, List.cons_append, List.nil_append,
    CommittedRecord.restoreScalars]

/-- C10: `saveContext` followed by `restoreContext` is the identity on the
committed record. Restoring into any status `t` from the stream written by
`saveContext` on `s` (whatever follows it in the stream) succeeds, consumes
exactly what was written, reproduces every committed member of `s` and leaves
the trial record of `t` alone; after `initTempStatus` the restored status and
`s` have the same committed and trial records, so every next increment
computed from these records gives the same result with and without the round
trip. -/
theorem saveContext_restoreContext_roundtrip (s t : ConcreteDPM2Status R)
    (rest : DataStream R) :
    ∃ r : ConcreteDPM2Status R,
      t.restoreContext (s.saveContext [] ++ rest) = some (r, rest) ∧
      r.committed = s.committed ∧
      r.trial = t.trial ∧
      r.initTempStatus.committed = s.initTempStatus.committed ∧
      r.initTempStatus.trial = s.initTempStatus.trial ∧
      ∀ (β : Type) (nextIncrement : CommittedRecord R → TrialRecord R → β),
        nextIncrement r.initTempStatus.committed r.initTempStatus.trial
          = nextIncrement s.initTempStatus.committed s.initTempStatus.trial := by
  have hread : CommittedRecord.restore (s.saveContext [] ++ rest)
      = some (s.committed, rest) := by
    rw [ConcreteDPM2Status.saveContext, List.nil_append]
    exact restore_store s.committed rest
  refine ⟨t.withCommitted s.committed, ?_, ?_, ?_, ?_, ?_, ?_⟩
  · rw [ConcreteDPM2Status.restoreContext, hread, Option.some_bind]
  · rfl
  · rfl
  · rfl
  · rfl
  · intro β nextIncrement
    rfl

end ContextTheorems

/-! ### Enumerations and input fields -/

section EnumTheorems

/-- C13: the state tag takes exactly nine values, numbered 0 to 8 in the order
Elastic, Unloading, Plastic, Damage, PlasticDamage, VertexCompression,
VertexTension, VertexCompressionDamage, VertexTensionDamage (so each vertex
state has its damaged variant); the numbers are pairwise distinct; and
`giveStateFlag` and `giveTempStateFlag` of the default-initialised status both
return Elastic. -/
theorem state_flag_nine_values_default_elastic :
    state_flag_values.all.map state_flag_values.toInt = [0, 1, 2, 3, 4, 5, 6, 7, 8] ∧
    state_flag_values.all.length = 9 ∧
    state_flag_values.all.Nodup ∧
    (∀ v : state_flag_values, v ∈ state_flag_values.all) ∧
    Function.Injective state_flag_values.toInt ∧
    (ConcreteDPM2Status.defaultInit ℚ).giveStateFlag
      = state_flag_values.ConcreteDPM2_Elastic.toInt ∧
    (ConcreteDPM2Status.defaultInit ℚ).giveTempStateFlag
      = state_flag_values.ConcreteDPM2_Elastic.toInt := by
  refine ⟨rfl, rfl, by decide, ?_, ?_, rfl, rfl⟩
  · intro v
    cases v <;> decide
  · intro a b h
    cases a <;> cases b <;> first | rfl | exact absurd h (by decide)

/-- C14: the input fields of ConcreteDPM2 named by the specification are
recognised under exactly the keywords fc, ft, ecc, ahard, bhard, chard, dhard,
dilation, asoft, wf, stype, yieldtol, newtoniter, rateflag, deltat and helem,
and all 23 input-field strings of the material are pairwise distinct. -/
theorem input_field_keywords :
    IFT_ConcreteDPM2_fc = "fc" ∧ IFT_ConcreteDPM2_ft = "ft" ∧
    IFT_ConcreteDPM2_ecc = "ecc" ∧
    IFT_ConcreteDPM2_ahard = "ahard" ∧ IFT_ConcreteDPM2_bhard = "bhard" ∧
    IFT_ConcreteDPM2_chard = "chard" ∧ IFT_ConcreteDPM2_dhard = "dhard" ∧
    IFT_ConcreteDPM2_dilation = "dilation" ∧ IFT_ConcreteDPM2_asoft = "asoft" ∧
    IFT_ConcreteDPM2_wf = "wf" ∧ IFT_ConcreteDPM2_softeningType = "stype" ∧
    IFT_ConcreteDPM2_yieldtol = "yieldtol" ∧ IFT_ConcreteDPM2_newtoniter = "newtoniter" ∧
    IFT_ConcreteDPM2_rateFlag = "rateflag" ∧ IFT_ConcreteDPM2_deltatime = "deltat" ∧
    IFT_ConcreteDPM2_helem = "helem" ∧
    IFT_ConcreteDPM2_all.length = 23 ∧
    IFT_ConcreteDPM2_all.Nodup := by
  refine ⟨rfl, rfl, rfl, rfl, rfl, rfl, rfl, rfl, rfl, rfl, rfl, rfl, rfl, rfl, rfl, rfl, rfl, ?_⟩
  decide

/-- C15 (as amended): the two bilinear softening parameters of ConcreteDPM2
are configured under the keywords `wf1` and `ft1`: the input-field string of
the bilinear crack-opening parameter `wfOne` is "wf1" and the one of the
bilinear stress parameter `ftOne` is "ft1". -/
theorem bilinear_softening_keywords :
    IFT_ConcreteDPM2_wfOne = "wf1" ∧ IFT_ConcreteDPM2_ftOne = "ft1" :=
  ⟨rfl, rfl⟩

/-- C15 fails as stated: the input-field strings of `wfOne` and `ftOne` are
not "wfOne" and "ftOne". -/
theorem bilinear_softening_keywords_not_member_names :
    IFT_ConcreteDPM2_wfOne ≠ "wfOne" ∧ IFT_ConcreteDPM2_ftOne ≠ "ftOne" := by
  decide

/-- C16, the code at the failing input: on the default-initialised status,
after `letTempKappaDTensionBe(1)` the accessor `giveKappaDTension()` returns
the committed value 0 and not the trial value 1 just written, and likewise
`giveKappaDCompression()` after `letTempKappaDCompressionBe(1)`. -/
theorem giveKappaD_after_trial_write :
    ((ConcreteDPM2Status.defaultInit ℚ).letTempKappaDTensionBe 1).giveKappaDTension = 0 ∧
    ((ConcreteDPM2Status.defaultInit ℚ).letTempKappaDTensionBe 1).tempKappaDTension = 1 ∧
    ((ConcreteDPM2Status.defaultInit ℚ).letTempKappaDTensionBe 1).giveKappaDTension ≠ 1 ∧
    ((ConcreteDPM2Status.defaultInit ℚ).letTempKappaDCompressionBe 1).giveKappaDCompression
      = 0 ∧
    ((ConcreteDPM2Status.defaultInit ℚ).letTempKappaDCompressionBe 1).tempKappaDCompression
      = 1 ∧
    ((ConcreteDPM2Status.defaultInit ℚ).letTempKappaDCompressionBe 1).giveKappaDCompression
      ≠ 1 := by
  have h : (0 : ℚ) ≠ 1 := zero_ne_one
  exact ⟨rfl, rfl, h, rfl, rfl, h⟩

/-- C17 (as amended): the return-type selector of ConcreteDPM2 has exactly
four values, `RT_Regular`, `RT_Tension`, `RT_Compression` and `RT_Auxiliary`;
the first three stand for the regular plastic return and the two vertex
returns of the specification, in this order. -/
theorem return_type_four_values :
    ConcreteDPM2_ReturnType.all.map ConcreteDPM2_ReturnType.identifier
      = ["RT_Regular", "RT_Tension", "RT_Compression", "RT_Auxiliary"] ∧
    ConcreteDPM2_ReturnType.all.length = 4 ∧
    ConcreteDPM2_ReturnType.all.Nodup ∧
    (∀ t : ConcreteDPM2_ReturnType, t ∈ ConcreteDPM2_ReturnType.all) ∧
    ConcreteDPM2_ReturnType.all.filterMap ConcreteDPM2_ReturnType.regime
      = [ReturnRegime.RegularPlastic, ReturnRegime.VertexTension,
         ReturnRegime.VertexCompression] := by
  refine ⟨rfl, rfl, by decide, ?_, rfl⟩
  intro t
  cases t <;> decide

/-- C17 fails as stated: no value of the return-type selector stands for the
elastic regime, and its fourth value `RT_Auxiliary` is none of the four
regimes of the specification. -/
theorem return_type_has_no_elastic_value :
    ReturnRegime.Elastic
      ∉ ConcreteDPM2_ReturnType.all.filterMap ConcreteDPM2_ReturnType.regime ∧
    ConcreteDPM2_ReturnType.RT_Auxiliary ∈ ConcreteDPM2_ReturnType.all ∧
    ConcreteDPM2_ReturnType.RT_Auxiliary.regime = none ∧
    ConcreteDPM2_ReturnType.RT_Auxiliary.identifier = "RT_Auxiliary" := by
  decide

end EnumTheorems

/-! ### LatticePlasticityDamageStatus -/

section LatticeTheorems

variable {R : Type}

/-- C18: every inline mutating operation of `LatticePlasticityDamageStatus`
(`letTempPlasticStrainBe`, `letTempElasticStrainBe`, `setTempKappaP`,
`setTempKappaDOne`, `setTempKappaDTwo`, `setTempDamage`, `setCompressionFlag`),
for every argument and every status, leaves the values returned by
`giveKappaP`, `giveKappaDOne`, `giveKappaDTwo`, `giveDamage` and
`giveElasticStrain` as they were before the call. -/
theorem lattice_mutator_committed_frame (m : LatticeMutator R)
    (s : LatticePlasticityDamageStatus R) :
    (m.apply s).giveKappaP = s.giveKappaP ∧
    (m.apply s).giveKappaDOne = s.giveKappaDOne ∧
    (m.apply s).giveKappaDTwo = s.giveKappaDTwo ∧
    (m.apply s).giveDamage = s.giveDamage ∧
    (m.apply s).giveElasticStrain = s.giveElasticStrain := by
  cases m <;> exact ⟨rfl, rfl, rfl, rfl, rfl⟩

end LatticeTheorems

/-! ### Plastic strain measures -/

section StrainMeasureTheorems

variable {R : Type}

lemma giveVolumetricPlasticStrain_cons [Field R] (s : ConcreteDPM2Status R)
    (p0 p1 p2 : R) (pr : FloatArray R) (hp : s.plasticStrain = p0 :: p1 :: p2 :: pr) :
    s.giveVolumetricPlasticStrain = some ((p0 + p1 + p2) / 3) := by
  have e : 1 / 3 * (p0 + p1 + p2) = (p0 + p1 + p2) / 3 := by ring
  simp only [ConcreteDPM2Status.giveVolumetricPlasticStrain, hp, List.getElem?_cons_zero,
    List.getElem?_cons_succ, e]

lemma giveTempVolumetricPlasticStrain_cons [Field R] (s : ConcreteDPM2Status R)
    (q0 q1 q2 : R) (qr : FloatArray R) (hq : s.tempPlasticStrain = q0 :: q1 :: q2 :: qr) :
    s.giveTempVolumetricPlasticStrain = some ((q0 + q1 + q2) / 3) := by
  have e : 1 / 3 * (q0 + q1 + q2) = (q0 + q1 + q2) / 3 := by ring
  simp only [ConcreteDPM2Status.giveTempVolumetricPlasticStrain, hq, List.getElem?_cons_zero,
    List.getElem?_cons_succ, e]

/-- C19: for a status whose committed plastic strain has the components
`p0, p1, p2, ...` and whose trial plastic strain has the components
`q0, q1, q2, ...`, `giveVolumetricPlasticStrain` returns `(p0 + p1 + p2) / 3`
and `giveTempVolumetricPlasticStrain` returns `(q0 + q1 + q2) / 3`; after
`letTempPlasticStrainBe(v)` the temp value is `(v0 + v1 + v2) / 3` and the
committed value is unchanged; and both are linear in the strain: on the
combination `a * x + b * y` of two strain arrays they give `a` times the value
on `x` plus `b` times the value on `y`. -/
theorem volumetric_plastic_strain [Field R] (s : ConcreteDPM2Status R)
    (p0 p1 p2 q0 q1 q2 v0 v1 v2 a b : R) (pr qr vr : FloatArray R)
    (hp : s.plasticStrain = p0 :: p1 :: p2 :: pr)
    (hq : s.tempPlasticStrain = q0 :: q1 :: q2 :: qr) :
    s.giveVolumetricPlasticStrain = some ((p0 + p1 + p2) / 3) ∧
    s.giveTempVolumetricPlasticStrain = some ((q0 + q1 + q2) / 3) ∧
    (s.letTempPlasticStrainBe (v0 :: v1 :: v2 :: vr)).giveTempVolumetricPlasticStrain
      = some ((v0 + v1 + v2) / 3) ∧
    (s.letTempPlasticStrainBe (v0 :: v1 :: v2 :: vr)).giveVolumetricPlasticStrain
      = some ((p0 + p1 + p2) / 3) ∧
    ({ s with plasticStrain :=
          List.zipWith (fun u w => a * u + b * w) s.plasticStrain (v0 :: v1 :: v2 :: vr) }
        : ConcreteDPM2Status R).giveVolumetricPlasticStrain
      = some (a * ((p0 + p1 + p2) / 3) + b * ((v0 + v1 + v2) / 3)) ∧
    (s.letTempPlasticStrainBe
        (List.zipWith (fun u w => a * u + b * w) s.tempPlasticStrain
          (v0 :: v1 :: v2 :: vr))).giveTempVolumetricPlasticStrain
      = some (a * ((q0 + q1 + q2) / 3) + b * ((v0 + v1 + v2) / 3)) := by
  refine ⟨giveVolumetricPlasticStrain_cons s p0 p1 p2 pr hp,
    giveTempVolumetricPlasticStrain_cons s q0 q1 q2 qr hq,
    giveTempVolumetricPlasticStrain_cons _ v0 v1 v2 vr rfl,
    giveVolumetricPlasticStrain_cons _ p0 p1 p2 pr hp, ?_, ?_⟩
  · rw [giveVolumetricPlasticStrain_cons _ (a * p0 + b * v0) (a * p1 + b * v1)
      (a * p2 + b * v2) (List.zipWith (fun u w => a * u + b * w) pr vr)
      (by simp only [hp, List.zipWith_cons_cons])]
    congr 1
    ring
  · rw [giveTempVolumetricPlasticStrain_cons _ (a * q0 + b * v0) (a * q1 + b * v1)
      (a * q2 + b * v2) (List.zipWith (fun u w => a * u + b * w) qr vr)
      (by simp only [ConcreteDPM2Status.letTempPlasticStrainBe, hq, List.zipWith_cons_cons])]
    congr 1
    ring

/-- Witness for `volumetric_plastic_strain`: committed plastic strain
`(3, 6, 9, 1, 1, 1)` and trial plastic strain `(1, 2, 3)`. -/
theorem volumetric_plastic_strain_witness :
    ({ ConcreteDPM2Status.defaultInit ℚ with
        plasticStrain := [3, 6, 9, 1, 1, 1], tempPlasticStrain := [1, 2, 3] }
      : ConcreteDPM2Status ℚ).giveVolumetricPlasticStrain = some ((3 + 6 + 9) / 3) ∧
    ({ ConcreteDPM2Status.defaultInit ℚ with
        plasticStrain := [3, 6, 9, 1, 1, 1], tempPlasticStrain := [1, 2, 3] }
      : ConcreteDPM2Status ℚ).giveTempVolumetricPlasticStrain = some ((1 + 2 + 3) / 3) :=
  ⟨(volumetric_plastic_strain
      ({ ConcreteDPM2Status.defaultInit ℚ with
        plasticStrain := [3, 6, 9, 1, 1, 1], tempPlasticStrain := [1, 2, 3] })
      3 6 9 1 2 3 0 0 0 1 1 [1, 1, 1] [] [] rfl rfl).1,
   (volumetric_plastic_strain
      ({ ConcreteDPM2Status.defaultInit ℚ with
        plasticStrain := [3, 6, 9, 1, 1, 1], tempPlasticStrain := [1, 2, 3] })
      3 6 9 1 2 3 0 0 0 1 1 [1, 1, 1] [] [] rfl rfl).2.1⟩

/-- C20: over the reals, `giveDeviatoricPlasticStrainNorm` returns the square
root of `d0^2 + d1^2 + d2^2 + (d3^2 + d4^2 + d5^2) / 2`, where `d` is the
deviator of the committed plastic strain; it is non-negative, and it is zero
exactly when all six components of the deviator are zero. -/
theorem deviatoric_plastic_strain_norm (computeDeviator : FloatArray ℝ → Fin 6 → ℝ)
    (s : ConcreteDPM2Status ℝ) :
    s.giveDeviatoricPlasticStrainNorm Real.sqrt computeDeviator
      = Real.sqrt ((computeDeviator s.givePlasticStrain 0) ^ 2
          + (computeDeviator s.givePlasticStrain 1) ^ 2
          + (computeDeviator s.givePlasticStrain 2) ^ 2
          + ((computeDeviator s.givePlasticStrain 3) ^ 2
              + (computeDeviator s.givePlasticStrain 4) ^ 2
              + (computeDeviator s.givePlasticStrain 5) ^ 2) / 2) ∧
    0 ≤ s.giveDeviatoricPlasticStrainNorm Real.sqrt computeDeviator ∧
    (s.giveDeviatoricPlasticStrainNorm Real.sqrt computeDeviator = 0 ↔
      ∀ i : Fin 6, computeDeviator s.givePlasticStrain i = 0) := by
  have hval : s.giveDeviatoricPlasticStrainNorm Real.sqrt computeDeviator
      = Real.sqrt ((computeDeviator s.givePlasticStrain 0) ^ 2
          + (computeDeviator s.givePlasticStrain 1) ^ 2
          + (computeDeviator s.givePlasticStrain 2) ^ 2
          + ((computeDeviator s.givePlasticStrain 3) ^ 2
              + (computeDeviator s.givePlasticStrain 4) ^ 2
              + (computeDeviator s.givePlasticStrain 5) ^ 2) / 2) := by
    simp only [ConcreteDPM2Status.giveDeviatoricPlasticStrainNorm,
      ConcreteDPM2Status.givePlasticStrain]
    congr 1
    ring
  refine ⟨hval, ?_, ?_⟩
  · rw [hval]
    exact Real.sqrt_nonneg _
  · rw [hval, Real.sqrt_eq_zero']
    generalize computeDeviator s.givePlasticStrain = d
    have h0 := sq_nonneg (d 0)
    have h1 := sq_nonneg (d 1)
    have h2 := sq_nonneg (d 2)
    have h3 := sq_nonneg (d 3)
    have h4 := sq_nonneg (d 4)
    have h5 := sq_nonneg (d 5)
    constructor
    · intro h
      have e0 : d 0 ^ 2 = 0 := by linarith
      have e1 : d 1 ^ 2 = 0 := by linarith
      have e2 : d 2 ^ 2 = 0 := by linarith
      have e3 : d 3 ^ 2 = 0 := by linarith
      have e4 : d 4 ^ 2 = 0 := by linarith
      have e5 : d 5 ^ 2 = 0 := by linarith
      intro i
      fin_cases i
      · exact pow_eq_zero_iff (two_ne_zero) |>.mp e0
      · exact pow_eq_zero_iff (two_ne_zero) |>.mp e1
      · exact pow_eq_zero_iff (two_ne_zero) |>.mp e2
      · exact pow_eq_zero_iff (two_ne_zero) |>.mp e3
      · exact pow_eq_zero_iff (two_ne_zero) |>.mp e4
      · exact pow_eq_zero_iff (two_ne_zero) |>.mp e5
    · intro h
      rw [h 0, h 1, h 2, h 3, h 4, h 5]
      norm_num

end StrainMeasureTheorems

/-! ### Setters and getters of ConcreteDPM2Status -/

section SetterTheorems

variable {R : Type}

/-- C22: for every status and every value, reading through the matching
accessor immediately after a mutator returns the value written, for each of
the pairs `letTempKappaPBe`/`giveTempKappaP`,
`letTempDamageTensionBe`/`giveTempDamageTension`,
`letTempDamageCompressionBe`/`giveTempDamageCompression`,
`letTempRateFactorBe`/`giveTempRateFactor`,
`letTempStateFlagBe`/`giveTempStateFlag`,
`letTempPlasticStrainBe`/`giveTempPlasticStrain`,
`letTempReducedStrainBe`/`giveTempReducedStrain`,
`setTempStressWork`/`giveTempStressWork`, `setTempDissWork`/`giveTempDissWork`
and `setLe`/`giveLe`. -/
theorem setter_getter_round_trip (s : ConcreteDPM2Status R) (v : R) (a : FloatArray R)
    (n : Int) :
    (s.letTempKappaPBe v).giveTempKappaP = v ∧
    (s.letTempDamageTensionBe v).giveTempDamageTension = v ∧
    (s.letTempDamageCompressionBe v).giveTempDamageCompression = v ∧
    (s.letTempRateFactorBe v).giveTempRateFactor = v ∧
    (s.letTempStateFlagBe n).giveTempStateFlag = n ∧
    (s.letTempPlasticStrainBe a).giveTempPlasticStrain = a ∧
    (s.letTempReducedStrainBe a).giveTempReducedStrain = a ∧
    (s.setTempStressWork v).giveTempStressWork = v ∧
    (s.setTempDissWork v).giveTempDissWork = v ∧
    (s.setLe v).giveLe = v :=
  ⟨rfl, rfl, rfl, rfl, rfl, rfl, rfl, rfl, rfl, rfl⟩

lemma mutator_read_member (m : Mutator R) (s : ConcreteDPM2Status R) :
    (m.apply s).read m.member = m.value := by
  cases m <;> rfl

lemma mutator_read_other (m : Mutator R) (s : ConcreteDPM2Status R) (f : StatusMember)
    (hf : f ≠ m.member) : (m.apply s).read f = s.read f := by
  cases m <;> cases f <;> first | rfl | exact absurd rfl hf

lemma mutator_commute (m1 m2 : Mutator R) (s : ConcreteDPM2Status R)
    (h : m1.member ≠ m2.member) : m1.apply (m2.apply s) = m2.apply (m1.apply s) := by
  cases m1 <;> cases m2 <;> first | rfl | exact absurd rfl h

lemma mutator_last_wins (m1 m2 : Mutator R) (s : ConcreteDPM2Status R)
    (h : m1.member = m2.member) : m2.apply (m1.apply s) = m2.apply s := by
  cases m1 <;> cases m2 <;> first | rfl | simp only [Mutator.member, reduceCtorEq] at h

/-- C23: each mutator of `ConcreteDPM2Status` changes exactly the one data
member it names: after the call that member holds the argument and every
other data member of the status, trial or committed, holds what it held
before; two mutators of different members commute; and of two successive
calls of mutators of the same member (in particular of the same mutator) only
the last one shows in the resulting status. -/
theorem mutator_changes_one_member (m1 m2 : Mutator R) (s : ConcreteDPM2Status R) :
    (m1.apply s).read m1.member = m1.value ∧
    (∀ f : StatusMember, f ≠ m1.member → (m1.apply s).read f = s.read f) ∧
    (m1.member ≠ m2.member → m1.apply (m2.apply s) = m2.apply (m1.apply s)) ∧
    (m1.member = m2.member → m2.apply (m1.apply s) = m2.apply s) :=
  ⟨mutator_read_member m1 s, fun f hf => mutator_read_other m1 s f hf,
   mutator_commute m1 m2 s, mutator_last_wins m1 m2 s⟩

/-- Witness for `mutator_changes_one_member`: on the default-initialised
status, `letTempKappaPBe(1/4)` leaves `kappaP` alone and commutes with
`letTempAlphaBe(1/2)`, and after `letTempKappaPBe(1/4)`, `letTempKappaPBe(3/4)`
gives the same status as `letTempKappaPBe(3/4)` alone. -/
theorem mutator_changes_one_member_witness :
    ((ConcreteDPM2Status.defaultInit ℚ).letTempKappaPBe (1 / 4)).read StatusMember.kappaP
      = (ConcreteDPM2Status.defaultInit ℚ).read StatusMember.kappaP ∧
    ((ConcreteDPM2Status.defaultInit ℚ).letTempAlphaBe (1 / 2)).letTempKappaPBe (1 / 4)
      = ((ConcreteDPM2Status.defaultInit ℚ).letTempKappaPBe (1 / 4)).letTempAlphaBe (1 / 2) ∧
    ((ConcreteDPM2Status.defaultInit ℚ).letTempKappaPBe (1 / 4)).letTempKappaPBe (3 / 4)
      = (ConcreteDPM2Status.defaultInit ℚ).letTempKappaPBe (3 / 4) :=
  ⟨(mutator_changes_one_member (Mutator.letTempKappaPBe (1 / 4))
      (Mutator.letTempAlphaBe (1 / 2)) (ConcreteDPM2Status.defaultInit ℚ)).2.1
      StatusMember.kappaP (by decide),
   (mutator_changes_one_member (Mutator.letTempKappaPBe (1 / 4))
      (Mutator.letTempAlphaBe (1 / 2)) (ConcreteDPM2Status.defaultInit ℚ)).2.2.1 (by decide),
   (mutator_changes_one_member (Mutator.letTempKappaPBe (1 / 4))
      (Mutator.letTempKappaPBe (3 / 4)) (ConcreteDPM2Status.defaultInit ℚ)).2.2.2 rfl⟩

/-- C24: in the default-initialised status the committed and the trial value
of kappaP, alpha, the three equivalent strains, the six damage history
variables, the two damage scalars, stressWork and dissWork are 0, `le` is 0,
both state tags are Elastic, and the committed rate factor is 1. -/
theorem defaultInit_virgin_state [Zero R] [One R] :
    (ConcreteDPM2Status.defaultInit R).kappaP = 0 ∧ (ConcreteDPM2Status.defaultInit R).tempKappaP = 0 ∧
    (ConcreteDPM2Status.defaultInit R).alpha = 0 ∧ (ConcreteDPM2Status.defaultInit R).tempAlpha = 0 ∧
    (ConcreteDPM2Status.defaultInit R).equivStrain = 0 ∧ (ConcreteDPM2Status.defaultInit R).tempEquivStrain = 0 ∧
    (ConcreteDPM2Status.defaultInit R).equivStrainTension = 0 ∧ (ConcreteDPM2Status.defaultInit R).tempEquivStrainTension = 0 ∧
    (ConcreteDPM2Status.defaultInit R).equivStrainCompression = 0 ∧ (ConcreteDPM2Status.defaultInit R).tempEquivStrainCompression = 0 ∧
    (ConcreteDPM2Status.defaultInit R).kappaDTension = 0 ∧ (ConcreteDPM2Status.defaultInit R).tempKappaDTension = 0 ∧
    (ConcreteDPM2Status.defaultInit R).kappaDCompression = 0 ∧ (ConcreteDPM2Status.defaultInit R).tempKappaDCompression = 0 ∧
    (ConcreteDPM2Status.defaultInit R).kappaDTensionOne = 0 ∧ (ConcreteDPM2Status.defaultInit R).tempKappaDTensionOne = 0 ∧
    (ConcreteDPM2Status.defaultInit R).kappaDCompressionOne = 0 ∧ (ConcreteDPM2Status.defaultInit R).tempKappaDCompressionOne = 0 ∧
    (ConcreteDPM2Status.defaultInit R).kappaDTensionTwo = 0 ∧ (ConcreteDPM2Status.defaultInit R).tempKappaDTensionTwo = 0 ∧
    (ConcreteDPM2Status.defaultInit R).kappaDCompressionTwo = 0 ∧ (ConcreteDPM2Status.defaultInit R).tempKappaDCompressionTwo = 0 ∧
    (ConcreteDPM2Status.defaultInit R).damageTension = 0 ∧ (ConcreteDPM2Status.defaultInit R).tempDamageTension = 0 ∧
    (ConcreteDPM2Status.defaultInit R).damageCompression = 0 ∧ (ConcreteDPM2Status.defaultInit R).tempDamageCompression = 0 ∧
    (ConcreteDPM2Status.defaultInit R).stressWork = 0 ∧ (ConcreteDPM2Status.defaultInit R).tempStressWork = 0 ∧
    (ConcreteDPM2Status.defaultInit R).dissWork = 0 ∧ (ConcreteDPM2Status.defaultInit R).tempDissWork = 0 ∧
    (ConcreteDPM2Status.defaultInit R).giveLe = 0 ∧
    (ConcreteDPM2Status.defaultInit R).giveStateFlag
      = state_flag_values.ConcreteDPM2_Elastic.toInt ∧
    (ConcreteDPM2Status.defaultInit R).giveTempStateFlag
      = state_flag_values.ConcreteDPM2_Elastic.toInt ∧
    (ConcreteDPM2Status.defaultInit R).giveRateFactor = 1 := by
  refine ⟨rfl, rfl, rfl, rfl, rfl, rfl, rfl, rfl, rfl, rfl, rfl, rfl, rfl, rfl, rfl, rfl, rfl, rfl, rfl, rfl, rfl, rfl, rfl, rfl, rfl, rfl, rfl, rfl, rfl, rfl, rfl, rfl, rfl, rfl⟩

/-- C25, the code at the failing input: in the default-initialised status
`tempRateFactor` is 0 while `rateFactor` is 1, so the trial rate factor differs
from the committed one; every other trial scalar the claim names has the value
of its committed counterpart. -/
theorem defaultInit_tempRateFactor_differs :
    (ConcreteDPM2Status.defaultInit ℚ).giveTempRateFactor = 0 ∧
    (ConcreteDPM2Status.defaultInit ℚ).giveRateFactor = 1 ∧
    (ConcreteDPM2Status.defaultInit ℚ).giveTempRateFactor
      ≠ (ConcreteDPM2Status.defaultInit ℚ).giveRateFactor ∧
    (ConcreteDPM2Status.defaultInit ℚ).tempKappaP = (ConcreteDPM2Status.defaultInit ℚ).kappaP ∧
    (ConcreteDPM2Status.defaultInit ℚ).tempAlpha = (ConcreteDPM2Status.defaultInit ℚ).alpha ∧
    (ConcreteDPM2Status.defaultInit ℚ).tempEquivStrain = (ConcreteDPM2Status.defaultInit ℚ).equivStrain ∧
    (ConcreteDPM2Status.defaultInit ℚ).tempEquivStrainTension = (ConcreteDPM2Status.defaultInit ℚ).equivStrainTension ∧
    (ConcreteDPM2Status.defaultInit ℚ).tempEquivStrainCompression = (ConcreteDPM2Status.defaultInit ℚ).equivStrainCompression ∧
    (ConcreteDPM2Status.defaultInit ℚ).tempKappaDTension = (ConcreteDPM2Status.defaultInit ℚ).kappaDTension ∧
    (ConcreteDPM2Status.defaultInit ℚ).tempKappaDCompression = (ConcreteDPM2Status.defaultInit ℚ).kappaDCompression ∧
    (ConcreteDPM2Status.defaultInit ℚ).tempKappaDTensionOne = (ConcreteDPM2Status.defaultInit ℚ).kappaDTensionOne ∧
    (ConcreteDPM2Status.defaultInit ℚ).tempKappaDCompressionOne = (ConcreteDPM2Status.defaultInit ℚ).kappaDCompressionOne ∧
    (ConcreteDPM2Status.defaultInit ℚ).tempKappaDTensionTwo = (ConcreteDPM2Status.defaultInit ℚ).kappaDTensionTwo ∧
    (ConcreteDPM2Status.defaultInit ℚ).tempKappaDCompressionTwo = (ConcreteDPM2Status.defaultInit ℚ).kappaDCompressionTwo ∧
    (ConcreteDPM2Status.defaultInit ℚ).tempDamageTension = (ConcreteDPM2Status.defaultInit ℚ).damageTension ∧
    (ConcreteDPM2Status.defaultInit ℚ).tempDamageCompression = (ConcreteDPM2Status.defaultInit ℚ).damageCompression ∧
    (ConcreteDPM2Status.defaultInit ℚ).tempRateStrain = (ConcreteDPM2Status.defaultInit ℚ).rateStrain ∧
    (ConcreteDPM2Status.defaultInit ℚ).tempStressWork = (ConcreteDPM2Status.defaultInit ℚ).stressWork ∧
    (ConcreteDPM2Status.defaultInit ℚ).tempDissWork = (ConcreteDPM2Status.defaultInit ℚ).dissWork ∧
    (ConcreteDPM2Status.defaultInit ℚ).temp_state_flag
      = (ConcreteDPM2Status.defaultInit ℚ).state_flag := by
  have h : (0 : ℚ) ≠ 1 := zero_ne_one
  refine ⟨rfl, rfl, h, rfl, rfl, rfl, rfl, rfl, rfl, rfl, rfl, rfl, rfl, rfl, rfl, rfl, rfl, rfl, rfl, rfl⟩

end SetterTheorems

/-! ### Elements and materials -/

section ElementTheorems

variable {R : Type}

/-- C21: for every MITC4 shell element, `computeNumberOfDofs` and
`computeNumberOfGlobalDofs` both return 24, which is 4 nodes times 6 degrees
of freedom (three displacements and three rotations). -/
theorem mitc4_number_of_dofs (e : MITC4Shell R) :
    e.computeNumberOfDofs = 24 ∧ e.computeNumberOfGlobalDofs = 24 ∧
    e.computeNumberOfDofs = 4 * (3 + 3) ∧ e.computeNumberOfGlobalDofs = 4 * (3 + 3) :=
  ⟨rfl, rfl, rfl, rfl⟩

/-- C26: `ConcreteDPM2::isCharacteristicMtrxSymmetric` and
`LatticePlasticityDamage::isCharacteristicMtrxSymmetric` return false for every
response mode and every state of the material. -/
theorem characteristic_matrix_not_symmetric (MatResponseMode : Type)
    (mat : ConcreteDPM2 R) (lat : LatticePlasticityDamage R) (rMode : MatResponseMode) :
    mat.isCharacteristicMtrxSymmetric rMode = false ∧
    lat.isCharacteristicMtrxSymmetric rMode = false :=
  ⟨rfl, rfl⟩

end ElementTheorems

end oofem
